import Mathlib

/-!
# Signaling and branch lifecycle of `VaddImprove.cpp`

A shallow embedding of the WebSocket signaling callbacks and of the
attach / detach callback chain of `src/VaddImprove.cpp`.

* Pointers are natural numbers; the `ReceiverEntry` allocations live in
  an explicit heap, the `GHashTable` is an association list.
* Every call the program makes to GLib, GStreamer, libsoup or the
  WebRTC element is appended to `World.log`, in program order.
* `g_error` logs at `G_LOG_LEVEL_ERROR`, which GLib always treats as
  fatal (the macro ends in `for (;;) ;`): the model records the call and
  sets `World.fault := some Fault.abort`; nothing after it runs.
* Diagnostics that json-glib itself prints from its precondition checks
  are not part of the log: the log holds the calls of this program only.
* The regular-expression matcher of libstdc++ is recursive: it needs one
  nested call for every character that `\S+` takes. The number of nested
  calls that the stack affords is a parameter, `stack`; a longer run of
  non-space characters exhausts the stack and the process dies
  (`Fault.stackOverflow`).
-/

namespace VaddImprove

/-! ## Text and the regular expression `\S+\.local` -/

/-- Whitespace of the `"C"` locale, the class that `\s` denotes for
`std::regex` over `char`. -/
def isSpaceC (c : Char) : Bool :=
  c == ' ' || c == '\t' || c == '\n' || c == Char.ofNat 11 || c == Char.ofNat 12 || c == '\r'

/-- The literal tail `\.local` of the pattern. -/
def dotLocal : List Char := ['.', 'l', 'o', 'c', 'a', 'l']

/-- Submatch `num` of a match of `\S+\.local`: the pattern has no
capture group, so only index 0 (the whole match) exists. -/
def fmtSub (m : List Char) (num : Nat) : List Char :=
  if num < 1 then m else []

/-- Value of a decimal digit. -/
def digitVal (c : Char) : Nat := c.toNat - '0'.toNat

/-- Where the scan of a format string stands: in plain text, right
after a `$`, or after `$` and one digit. -/
inductive FmtState where
  | plain
  | dollar
  | digit (d : Nat)
  deriving DecidableEq, Repr

/-- Expansion of an ECMAScript format string (`match_results::format`
with default flags): `$$`, `$&`, the prefix and suffix escapes and
`$n` / `$nn`; any other `$` is literal. `pre`, `m` and `suf` are the
text before the match, the match and the text after it. -/
def formatECMA_go (pre m suf : List Char) : FmtState → List Char → List Char
  | .plain, [] => []
  | .dollar, [] => ['$']
  | .digit d, [] => fmtSub m d
  | .plain, c :: cs =>
    if c = '$' then formatECMA_go pre m suf .dollar cs
    else c :: formatECMA_go pre m suf .plain cs
  | .dollar, c :: cs =>
    if c = '$' then '$' :: formatECMA_go pre m suf .plain cs
    else if c = '&' then m ++ formatECMA_go pre m suf .plain cs
    else if c = Char.ofNat 96 then pre ++ formatECMA_go pre m suf .plain cs
    else if c = Char.ofNat 39 then suf ++ formatECMA_go pre m suf .plain cs
    else if c.isDigit then formatECMA_go pre m suf (.digit (digitVal c)) cs
    else '$' :: c :: formatECMA_go pre m suf .plain cs
  | .digit d, c :: cs =>
    if c.isDigit then
      fmtSub m (d * 10 + digitVal c) ++ formatECMA_go pre m suf .plain cs
    else if c = '$' then fmtSub m d ++ formatECMA_go pre m suf .dollar cs
    else fmtSub m d ++ c :: formatECMA_go pre m suf .plain cs

/-- The format expansion, started in plain text. -/
def formatECMA (pre m suf fmt : List Char) : List Char :=
  formatECMA_go pre m suf .plain fmt

/-- What one anchored attempt of the matcher ends in: the stack is
exhausted, there is no match, or there is a match of the given length. -/
inductive MatchOutcome where
  | overflow
  | fail
  | found (n : Nat)
  deriving DecidableEq, Repr

/-- The recursive matcher of libstdc++ on `\S+\.local`, anchored at the
head of the text. `\S+` is greedy and every character it takes is one
more nested call, so the matcher first descends to the end of the run of
non-space characters and only then tries the literal `.local`, level by
level on the way back. `stack` is the number of nested calls that the
stack of the thread still affords (it depends on the platform); when a
run is longer, the stack is exhausted and the process dies. -/
def matchLocalAt : Nat → List Char → MatchOutcome
  | _, [] => MatchOutcome.fail
  | stack, c :: cs =>
    if isSpaceC c then MatchOutcome.fail
    else
      match stack with
      | 0 => MatchOutcome.overflow
      | k + 1 =>
        match matchLocalAt k cs with
        | MatchOutcome.overflow => MatchOutcome.overflow
        | MatchOutcome.found n => MatchOutcome.found (n + 1)
        | MatchOutcome.fail =>
          if dotLocal.isPrefixOf cs then MatchOutcome.found 7 else MatchOutcome.fail

/-- The loop of `std::regex_replace` for the pattern `\S+\.local`, one
character at a time. `pre` is the unmatched text since the previous
match, `skip` the number of characters of the current match that are
still to be passed over. At every other position the matcher is run:
unmatched characters are copied, each match is replaced by the expansion
of `fmt`, and the search resumes at the end of the match. The result is
`none` when the matcher exhausts the stack. -/
def regex_replace_go (stack : Nat) (fmt : List Char) :
    List Char → Nat → List Char → Option (List Char)
  | _, _, [] => some []
  | pre, k + 1, _ :: cs => regex_replace_go stack fmt pre k cs
  | pre, 0, c :: cs =>
    match matchLocalAt stack (c :: cs) with
    | MatchOutcome.overflow => none
    | MatchOutcome.found n =>
      (regex_replace_go stack fmt [] (n - 1) cs).map
        (fun out => formatECMA pre ((c :: cs).take n) ((c :: cs).drop n) fmt ++ out)
    | MatchOutcome.fail =>
      (regex_replace_go stack fmt (pre ++ [c]) 0 cs).map (fun out => c :: out)

/-- Model of `std::regex_replace(s, std::regex(R"(\S+\.local)"), fmt)`
on a stack that affords `stack` nested calls of the matcher: the new
text, or `none` when the stack is exhausted. -/
def regex_replace (stack : Nat) (s fmt : String) : Option String :=
  (regex_replace_go stack fmt.data [] 0 s.data).map String.mk

/-- A parsed JSON node. Numbers are integers (`gint64`); floating-point
members are outside the embedding. An object is its member list. -/
inductive JsonNode where
  | null
  | bool (b : Bool)
  | int (i : Int)
  | str (s : String)
  | array (xs : List JsonNode)
  | object (members : List (String × JsonNode))

/-- The members of a JSON object. -/
abbrev JsonObject := List (String × JsonNode)

/-- Model of `JSON_NODE_HOLDS_OBJECT` followed by `json_node_get_object`. -/
def json_node_get_object : JsonNode → Option JsonObject
  | .object ms => some ms
  | _ => none

/-- Model of `json_object_has_member`; on a `NULL` object the
precondition check of json-glib makes it return `FALSE`. -/
def json_object_has_member (o : Option JsonObject) (name : String) : Bool :=
  match o with
  | none => false
  | some ms => (ms.lookup name).isSome

/-- Model of `json_object_get_string_member`: the string of a string
member, `NULL` (here `none`) for every other member. -/
def json_object_get_string_member (o : Option JsonObject) (name : String) :
    Option String :=
  match o with
  | none => none
  | some ms =>
    match ms.lookup name with
    | some (.str s) => some s
    | _ => none

/-- Model of `json_object_get_object_member`: the object of an object
member, `NULL` for every other member. -/
def json_object_get_object_member (o : Option JsonObject) (name : String) :
    Option JsonObject :=
  match o with
  | none => none
  | some ms =>
    match ms.lookup name with
    | some (.object inner) => some inner
    | _ => none

/-- Model of `json_object_get_int_member`: the `gint64` of an integer
member, 0 or 1 for a boolean, 0 for every other member. -/
def json_object_get_int_member (o : Option JsonObject) (name : String) : Int :=
  match o with
  | none => 0
  | some ms =>
    match ms.lookup name with
    | some (.int i) => i
    | some (.bool b) => if b then 1 else 0
    | _ => 0

/-- Conversion of a `gint64` to `guint` (32 bits), as in
`guint mline_index = json_object_get_int_member (...)`. -/
def to_guint (i : Int) : Nat := (i % 4294967296).toNat

/-! ## The state of the process -/

/-- Identity of a `SoupWebsocketConnection`. -/
abbrev Conn := Nat
/-- Address of a `ReceiverEntry`. -/
abbrev Ptr := Nat
/-- Identity of a `GstPad`. -/
abbrev PadId := Nat
/-- Identity of a `GstElement`. -/
abbrev ElemId := Nat

/-- Result of a GStreamer state change. -/
inductive GstStateChangeReturn where
  | FAILURE
  | SUCCESS
  | ASYNC
  | NO_PREROLL
  deriving DecidableEq, Repr

/-- Target states used by the program. -/
inductive GstState where
  | NULL
  | PLAYING
  deriving DecidableEq, Repr

/-- The two pad-probe callbacks of the program. -/
inductive ProbeKind where
  | pad_probe_cb
  | event_probe_cb
  deriving DecidableEq, Repr

/-- How the process can stop abnormally. -/
inductive Fault where
  | abort
  | nullDeref
  | danglingDeref
  | stackOverflow
  deriving DecidableEq, Repr

/-- The fields of `struct _ReceiverEntry`. `r_table` is `true` once
the field points to the registry (there is one registry). -/
structure ReceiverEntry where
  connection : Option Conn
  r_table : Bool
  pipeline : ElemId
  webrtcbin : ElemId
  queue : ElemId
  client_ip : String
  tee_src_pad : PadId
  sink_pad : PadId
  deriving DecidableEq, Repr

/-- An installed pad probe: where, which callback, and its `user_data`. -/
structure Probe where
  id : Nat
  pad : PadId
  kind : ProbeKind
  user_data : Option Ptr
  deriving DecidableEq, Repr

/-- A connected signal handler. -/
inductive Handler where
  | closed (c : Conn)
  | message (c : Conn) (user_data : Ptr)
  | on_negotiation_needed (webrtcbin : ElemId) (user_data : Ptr)
  | on_ice_candidate (webrtcbin : ElemId) (user_data : Ptr)
  deriving DecidableEq, Repr

/-- A call the program makes to the outside. -/
inductive Action where
  | g_print (text : String)
  | g_warning (text : String)
  | g_error (text : String)
  | emit_set_remote_description (webrtcbin : ElemId) (sdp : String)
  | emit_add_ice_candidate (webrtcbin : ElemId) (mline_index : Nat) (candidate : String)
  | emit_create_offer (webrtcbin : ElemId) (user_data : Ptr)
  | emit_set_local_description (webrtcbin : ElemId) (sdp : Option String)
  | send_text (c : Conn) (text : String)
  | pad_add_probe (pad : PadId) (kind : ProbeKind) (user_data : Option Ptr)
  | pad_remove_probe (pad : PadId) (id : Nat)
  | pad_send_eos (pad : PadId)
  | pad_unlink (src sink : PadId)
  | release_request_pad (pad : PadId)
  | request_pad (pad : PadId)
  | set_state (e : ElemId) (s : GstState)
  | get_state (e : ElemId)
  | bin_add (e : ElemId)
  | bin_remove (e : ElemId)
  | hash_table_replace (c : Conn) (value : Ptr)
  | hash_table_remove (c : Conn)
  deriving DecidableEq, Repr

/-- The process: the admission flag `available`, the registry
`receiver_entry_table`, the live `ReceiverEntry` allocations, the
installed probes and handlers, the request pads of `video_tee`, the
children of `webrtc_pipeline`, the allocation counter, the log of calls
and the fault, if the process has stopped. -/
structure World where
  available : Bool
  table : List (Conn × Ptr)
  heap : List (Ptr × ReceiverEntry)
  probes : List Probe
  handlers : List Handler
  teePads : List PadId
  children : List ElemId
  nextId : Nat
  log : List Action
  fault : Option Fault
  deriving DecidableEq, Repr

/-- The process right after `main` has set up the registry: the flag is
open, nothing is attached. -/
def World.init : World :=
  { available := true, table := [], heap := [], probes := [], handlers := [],
    teePads := [], children := [], nextId := 1, log := [], fault := none }

/-- Append one call to the log. -/
def World.emit (w : World) (a : Action) : World :=
  { w with log := w.log ++ [a] }

/-- Model of `g_error`: the message is logged and the process aborts. -/
def World.g_error (w : World) (text : String) : World :=
  { w with log := w.log ++ [Action.g_error text], fault := some Fault.abort }

/-- The process stops on an invalid memory access. -/
def World.crash (w : World) (f : Fault) : World :=
  { w with fault := some f }

/-- Dereference of a `ReceiverEntry *`. -/
def World.entry (w : World) (p : Ptr) : Option ReceiverEntry :=
  w.heap.lookup p

/-! ## Inbound signaling: `soup_websocket_message_cb` -/

/-- The two kinds of WebSocket payload. -/
inductive SoupWebsocketDataType where
  | TEXT
  | BINARY
  deriving DecidableEq, Repr

/-- An inbound payload: its text and the root node that
`json_parser_load_from_data` builds from it (`none` when the text is
not JSON). -/
structure Inbound where
  data : String
  root : Option JsonNode

/-- The label `unknown_message`: one warning, then `cleanup`. -/
def unknown_message (w : World) (data_string : String) : World :=
  w.emit (Action.g_warning ("Unknown message \"" ++ data_string ++ "\", ignoring"))

/-- The branch `type == "answer"` of `soup_websocket_message_cb`.
`sdp_ok` stands for `gst_sdp_message_parse_buffer (...) == GST_SDP_OK`. -/
def handle_answer (sdp_ok : String → Bool) (w : World) (root : JsonObject)
    (user_data : Ptr) : World :=
  if !json_object_has_member (some root) "sdp" then
    w.g_error "Received SDP message without SDP string\n"
  else
    let sdp_string := json_object_get_string_member (some root) "sdp"
    let w1 := w.emit (Action.g_print "Received SDP answer:\n%s\n")
    match sdp_string with
    | none => w1.crash Fault.nullDeref
    | some sdp =>
      if !sdp_ok sdp then
        w1.g_error "Could not parse SDP string\n"
      else
        match w1.entry user_data with
        | none => w1.crash Fault.danglingDeref
        | some e => w1.emit (Action.emit_set_remote_description e.webrtcbin sdp)

/-- The branch `type == "ice-candidate"` of `soup_websocket_message_cb`.
`stack` is the number of nested calls of the regular-expression matcher
that the stack affords at this point. -/
def handle_ice_candidate (stack : Nat) (w : World) (root : JsonObject) (user_data : Ptr) :
    World :=
  if !json_object_has_member (some root) "candidate" then
    w.g_error "Received ICE message without candidate field\n"
  else
    let data_json_object := json_object_get_object_member (some root) "candidate"
    if !json_object_has_member data_json_object "sdpMLineIndex" then
      w.g_error "Received ICE message without mline index\n"
    else
      let mline_index := to_guint (json_object_get_int_member data_json_object "sdpMLineIndex")
      if !json_object_has_member data_json_object "candidate" then
        w.g_error "Received ICE message without ICE candidate string\n"
      else
        match json_object_get_string_member data_json_object "candidate" with
        | none => w.crash Fault.nullDeref
        | some candidate_string =>
          match w.entry user_data with
          | none => w.crash Fault.danglingDeref
          | some e =>
            match regex_replace stack candidate_string e.client_ip with
            | none => w.crash Fault.stackOverflow
            | some modified =>
              if modified = "" then w
              else
                (w.emit (Action.g_print
                    "Received ICE candidate with mline index %u; candidate: %s\n")).emit
                  (Action.emit_add_ice_candidate e.webrtcbin mline_index modified)

/-- Model of `soup_websocket_message_cb`. `sdp_ok` stands for the
result of the SDP parser, `stack` for the number of nested calls of the
regular-expression matcher that the stack affords. -/
def soup_websocket_message_cb (sdp_ok : String → Bool) (stack : Nat) (w : World)
    (data_type : SoupWebsocketDataType) (message : Inbound) (user_data : Ptr) : World :=
  match data_type with
  | .BINARY => w.g_error "Received unknown binary message, ignoring\n"
  | .TEXT =>
    let data_string := message.data
    match message.root with
    | none => unknown_message w data_string
    | some root_json =>
      match json_node_get_object root_json with
      | none => unknown_message w data_string
      | some root_json_object =>
        if !json_object_has_member (some root_json_object) "type" then
          w.g_error "Received message without type field\n"
        else
          let type_string := json_object_get_string_member (some root_json_object) "type"
          if type_string = some "answer" then
            handle_answer sdp_ok w root_json_object user_data
          else if type_string = some "ice-candidate" then
            handle_ice_candidate stack w root_json_object user_data
          else unknown_message w data_string

/-! ## Detach: `event_probe_cb`, `pad_probe_cb`, `soup_websocket_closed_cb` -/

/-- The values a pad-probe callback of the program returns. -/
inductive GstPadProbeReturn where
  | DROP
  | OK
  deriving DecidableEq, Repr

/-- Model of `destroy_receiver_entry`, the value-destroy function of the
registry: the connection reference is dropped and the entry is freed. -/
def destroy_receiver_entry (w : World) (p : Ptr) : World :=
  { w with heap := w.heap.filter (fun q => q.1 ≠ p) }

/-- Model of `g_hash_table_remove` on the registry: the mapping is
removed and the value-destroy function runs on its entry. -/
def g_hash_table_remove (w : World) (c : Conn) : World :=
  let w1 := w.emit (Action.hash_table_remove c)
  match w1.table.lookup c with
  | none => w1
  | some p => destroy_receiver_entry { w1 with table := w1.table.filter (fun q => q.1 ≠ c) } p

/-- Model of `g_hash_table_replace` on the registry: an older mapping of
the key is destroyed first. -/
def g_hash_table_replace (w : World) (c : Conn) (p : Ptr) : World :=
  let w1 := w.emit (Action.hash_table_replace c p)
  let w2 :=
    match w1.table.lookup c with
    | none => w1
    | some q => destroy_receiver_entry w1 q
  { w2 with table := (c, p) :: w2.table.filter (fun q => q.1 ≠ c) }

/-- Model of `gst_pad_add_probe`: the probe gets a fresh id. -/
def gst_pad_add_probe (w : World) (pad : PadId) (kind : ProbeKind)
    (user_data : Option Ptr) : World :=
  { w with
    probes := w.probes ++ [{ id := w.nextId, pad := pad, kind := kind, user_data := user_data }],
    nextId := w.nextId + 1,
    log := w.log ++ [Action.pad_add_probe pad kind user_data] }

/-- Model of `gst_pad_remove_probe`. -/
def gst_pad_remove_probe (w : World) (pad : PadId) (id : Nat) : World :=
  { w with
    probes := w.probes.filter (fun p => !(p.pad == pad && p.id == id)),
    log := w.log ++ [Action.pad_remove_probe pad id] }

/-- Model of `gst_element_release_request_pad (video_tee, pad)`. -/
def gst_element_release_request_pad (w : World) (pad : PadId) : World :=
  { w with
    teePads := w.teePads.filter (fun q => q ≠ pad),
    log := w.log ++ [Action.release_request_pad pad] }

/-- Model of `gst_bin_remove (GST_BIN (webrtc_pipeline), e)`. -/
def gst_bin_remove (w : World) (e : ElemId) : World :=
  { w with
    children := w.children.filter (fun q => q ≠ e),
    log := w.log ++ [Action.bin_remove e] }

/-- The teardown of the sub-pipeline inside `event_probe_cb`, lines
107 to 135: the state change to `NULL` and what follows from its result.
`set_ret` and `get_ret` are what `gst_element_set_state` and
`gst_element_get_state` return. -/
def stop_sub_pipeline (w : World) (e : ReceiverEntry)
    (set_ret get_ret : GstStateChangeReturn) : World :=
  let w1 := w.emit (Action.set_state e.pipeline GstState.NULL)
  if set_ret = GstStateChangeReturn.FAILURE then
    w1.emit (Action.g_warning "Failed to set WebRTC sub-pipeline to NULL state")
  else
    let w2 := w1.emit (Action.get_state e.pipeline)
    if get_ret = GstStateChangeReturn.SUCCESS ∨ get_ret = GstStateChangeReturn.NO_PREROLL then
      let w3 := w2.emit (Action.g_print "Pipeline reached NULL state\n")
      let w4 := w3.emit (Action.g_print "\nremoving %p\n")
      gst_bin_remove w4 e.pipeline
    else
      w2.emit (Action.g_warning "WebRTC sub-pipeline failed to reach NULL state properly")

/-- Model of `event_probe_cb`. `is_eos` tells whether the event is
`GST_EVENT_EOS`. After the registry entry is removed the entry is freed;
the closing `gst_print` is logged without the pointer it reads. -/
def event_probe_cb (w : World) (pad : PadId) (probe_id : Nat) (is_eos : Bool)
    (user_data : Option Ptr) (set_ret get_ret : GstStateChangeReturn) :
    World × GstPadProbeReturn :=
  if !is_eos then (w, GstPadProbeReturn.OK)
  else
    let w1 := w.emit (Action.g_print "\nWebrtcbin received EOS\n")
    let w2 := w1.emit (Action.g_print "\nStart tearing down Webrtcbin sub-pipeline\n")
    match user_data with
    | none => (w2.crash Fault.nullDeref, GstPadProbeReturn.DROP)
    | some p =>
      match w2.entry p with
      | none => (w2.crash Fault.danglingDeref, GstPadProbeReturn.DROP)
      | some e =>
        let w3 := gst_pad_remove_probe w2 pad probe_id
        let w4 := w3.emit (Action.pad_unlink e.tee_src_pad e.sink_pad)
        let w5 := gst_element_release_request_pad w4 e.tee_src_pad
        let w6 := stop_sub_pipeline w5 e set_ret get_ret
        let w7 :=
          match e.connection with
          | some c => if e.r_table then g_hash_table_remove w6 c else w6
          | none => w6
        (w7.emit (Action.g_print "Closed websocket connection %p\n"), GstPadProbeReturn.DROP)

/-- The probes of `kind` that are installed on `pad`. -/
def probesOn (w : World) (pad : PadId) (kind : ProbeKind) : List Probe :=
  w.probes.filter (fun p => p.pad == pad && p.kind == kind)

/-- The event probes of a pad are called in turn, while the process
runs, the probe is still installed and no callback has dropped the
event. -/
def run_event_probes (pad : PadId) (is_eos : Bool) (set_ret get_ret : GstStateChangeReturn) :
    List Probe → World → World
  | [], w => w
  | p :: ps, w =>
    if w.fault.isSome then w
    else if p ∈ w.probes then
      let r := event_probe_cb w pad p.id is_eos p.user_data set_ret get_ret
      if r.2 = GstPadProbeReturn.DROP then r.1
      else run_event_probes pad is_eos set_ret get_ret ps r.1
    else run_event_probes pad is_eos set_ret get_ret ps w

/-- Model of `gst_pad_send_event (pad, gst_event_new_eos ())`: the event
probes of the pad run inside the call. -/
def gst_pad_send_eos (w : World) (pad : PadId) (set_ret get_ret : GstStateChangeReturn) :
    World :=
  let w1 := w.emit (Action.pad_send_eos pad)
  run_event_probes pad true set_ret get_ret (probesOn w1 pad ProbeKind.event_probe_cb) w1

/-- Model of `pad_probe_cb`. -/
def pad_probe_cb (w : World) (pad : PadId) (probe_id : Nat) (user_data : Option Ptr)
    (set_ret get_ret : GstStateChangeReturn) : World × GstPadProbeReturn :=
  let w1 := w.emit (Action.g_print "\ntee src pad is blocked now\n")
  let w2 := gst_pad_remove_probe w1 pad probe_id
  match user_data with
  | none => (w2.crash Fault.nullDeref, GstPadProbeReturn.OK)
  | some p =>
    match w2.entry p with
    | none => (w2.crash Fault.danglingDeref, GstPadProbeReturn.OK)
    | some e =>
      let w3 := gst_pad_add_probe w2 e.sink_pad ProbeKind.event_probe_cb user_data
      (gst_pad_send_eos w3 e.sink_pad set_ret get_ret, GstPadProbeReturn.OK)

/-- The heap cell `q` after the store to `r_table` of the entry at `p`. -/
def mark_r_table (p : Ptr) (q : Ptr × ReceiverEntry) : Ptr × ReceiverEntry :=
  if q.1 = p then (q.1, { q.2 with r_table := true }) else q

/-- Store to the field `r_table` of the entry at `p`. -/
def set_r_table (w : World) (p : Ptr) : World :=
  { w with heap := w.heap.map (mark_r_table p) }

/-- Model of `soup_websocket_closed_cb`: the registry lookup and, with
no check of its result, the store to `r_table` and the blocking probe on
the tee pad. -/
def soup_websocket_closed_cb (w : World) (connection : Conn) : World :=
  match w.table.lookup connection with
  | none => w.crash Fault.nullDeref
  | some p =>
    match w.entry p with
    | none => w.crash Fault.danglingDeref
    | some e =>
      gst_pad_add_probe (set_r_table w p) e.tee_src_pad ProbeKind.pad_probe_cb (some p)

/-! ## Attach and admission: `create_receiver_entry`, `soup_websocket_handler` -/

/-- Model of `create_receiver_entry`. The entry, the bin, the queue, the
WebRTC element and the two pads get fresh identities. `set_ret` and
`get_ret` are what `gst_element_set_state (..., GST_STATE_PLAYING)` and
`gst_element_get_state (..., 5 * GST_SECOND)` return. The local `error`
is `NULL` throughout, so the `cleanup` label is reached only after
`g_error`, which has stopped the process. -/
def create_receiver_entry (w : World) (connection : Conn) (client_ip : String)
    (set_ret get_ret : GstStateChangeReturn) : World × Option Ptr :=
  let ptr := w.nextId
  let client_bin := w.nextId + 1
  let queue := w.nextId + 2
  let webrtcbin := w.nextId + 3
  let sink_pad := w.nextId + 4
  let tee_src_pad := w.nextId + 5
  let receiver_entry : ReceiverEntry :=
    { connection := some connection, r_table := false, pipeline := client_bin,
      webrtcbin := webrtcbin, queue := queue, client_ip := client_ip,
      tee_src_pad := tee_src_pad, sink_pad := sink_pad }
  let w1 : World :=
    { w with
      nextId := w.nextId + 6,
      heap := (ptr, receiver_entry) :: w.heap,
      handlers := w.handlers ++ [Handler.message connection ptr,
        Handler.on_negotiation_needed webrtcbin ptr, Handler.on_ice_candidate webrtcbin ptr],
      children := w.children ++ [client_bin],
      teePads := w.teePads ++ [tee_src_pad],
      log := w.log ++ [Action.bin_add client_bin, Action.request_pad tee_src_pad,
        Action.set_state client_bin GstState.PLAYING] }
  if set_ret = GstStateChangeReturn.FAILURE then
    (w1.g_error "Could not start WebRTC sub-pipeline", none)
  else
    let w2 := w1.emit (Action.get_state client_bin)
    if get_ret = GstStateChangeReturn.SUCCESS ∨ get_ret = GstStateChangeReturn.NO_PREROLL then
      (w2, some ptr)
    else
      (w2.emit (Action.g_warning "Pipeline failed to reach PLAYING state properly"), some ptr)

/-- Model of `soup_websocket_handler`. `remote` is the text of the
remote address when `G_IS_INET_SOCKET_ADDRESS` holds, `none` otherwise. -/
def soup_websocket_handler (w : World) (connection : Conn) (remote : Option String)
    (set_ret get_ret : GstStateChangeReturn) : World :=
  let w1 : World :=
    { w with
      log := w.log ++ [Action.g_print "\nProcessing new websocket connection %p\n"],
      handlers := w.handlers ++ [Handler.closed connection] }
  if w1.available then
    let w2 : World := { w1 with available := false }
    match remote with
    | some ip_str =>
      let w3 := w2.emit (Action.g_print "\nServing client with ip: %s\n")
      match create_receiver_entry w3 connection ip_str set_ret get_ret with
      | (w4, some receiver_entry) => g_hash_table_replace w4 connection receiver_entry
      | (w4, none) => w4
    | none => w2.emit (Action.g_print "\nConnection did not establish due to IP issue!\n")
  else
    w1.emit (Action.g_print "\nServer still not available yet! \n")

/-- One round of the loop of `update_availability`, after the sleep. -/
def update_availability (w : World) : World :=
  { w with available := true }

/-! ## Events of the environment -/

/-- The events of the admission protocol: a viewer connects, or the
timer thread finishes a sleep. -/
inductive AdmissionEvent where
  | connect (c : Conn) (remote : Option String) (set_ret get_ret : GstStateChangeReturn)
  | timer
  deriving DecidableEq, Repr

/-- One admission event; a stopped process does nothing. -/
def admissionStep (w : World) (ev : AdmissionEvent) : World :=
  if w.fault.isSome then w
  else
    match ev with
    | .connect c remote set_ret get_ret => soup_websocket_handler w c remote set_ret get_ret
    | .timer => update_availability w

/-- A sequence of admission events. -/
def admissionRun (w : World) (evs : List AdmissionEvent) : World :=
  evs.foldl admissionStep w

/-- Number of sessions created so far: the registry insertions in the log. -/
def sessionsCreated (w : World) : Nat :=
  (w.log.filter (fun a => match a with
    | Action.hash_table_replace _ _ => true
    | _ => false)).length

/-- What the media pipeline does to a branch: data reaches a pad of the
tee, or a downstream event reaches a pad. The state-change results are
those the teardown would get if it ran. -/
inductive PipelineEvent where
  | tee_data (pad : PadId) (set_ret get_ret : GstStateChangeReturn)
  | pad_event (pad : PadId) (is_eos : Bool) (set_ret get_ret : GstStateChangeReturn)
  deriving DecidableEq, Repr

/-- The blocking probes of a pad are called in turn, while the process
runs and the probe is still installed. -/
def run_block_probes (pad : PadId) (set_ret get_ret : GstStateChangeReturn) :
    List Probe → World → World
  | [], w => w
  | p :: ps, w =>
    if w.fault.isSome then w
    else if p ∈ w.probes then
      run_block_probes pad set_ret get_ret ps
        (pad_probe_cb w pad p.id p.user_data set_ret get_ret).1
    else run_block_probes pad set_ret get_ret ps w

/-- One pipeline event; a stopped process does nothing. -/
def pipelineStep (w : World) (ev : PipelineEvent) : World :=
  if w.fault.isSome then w
  else
    match ev with
    | .tee_data pad set_ret get_ret =>
      run_block_probes pad set_ret get_ret (probesOn w pad ProbeKind.pad_probe_cb) w
    | .pad_event pad is_eos set_ret get_ret =>
      run_event_probes pad is_eos set_ret get_ret (probesOn w pad ProbeKind.event_probe_cb) w

/-- A sequence of pipeline events. -/
def pipelineRun (w : World) (evs : List PipelineEvent) : World :=
  evs.foldl pipelineStep w

/-- The milestones of the detach of one branch. -/
inductive DetachStep where
  | block_requested
  | eos_handler_installed
  | eos_injected
  | unlinked
  | released
  | stopped
  deriving DecidableEq, Repr

/-- The milestone a logged call stands for, for the branch of entry `e`. -/
def detachStepOf (e : ReceiverEntry) : Action → Option DetachStep
  | Action.pad_add_probe pad ProbeKind.pad_probe_cb _ =>
    if pad = e.tee_src_pad then some DetachStep.block_requested else none
  | Action.pad_add_probe pad ProbeKind.event_probe_cb _ =>
    if pad = e.sink_pad then some DetachStep.eos_handler_installed else none
  | Action.pad_send_eos pad =>
    if pad = e.sink_pad then some DetachStep.eos_injected else none
  | Action.pad_unlink src _ =>
    if src = e.tee_src_pad then some DetachStep.unlinked else none
  | Action.release_request_pad pad =>
    if pad = e.tee_src_pad then some DetachStep.released else none
  | Action.set_state el GstState.NULL =>
    if el = e.pipeline then some DetachStep.stopped else none
  | _ => none

/-- The milestones of the branch of `e`, in the order the log has them. -/
def detachTrace (e : ReceiverEntry) (log : List Action) : List DetachStep :=
  log.filterMap (detachStepOf e)

/-- The lifecycle states of a branch. -/
inductive BranchPhase where
  | ATTACHED
  | DRAIN_REQUESTED
  | DRAINING
  | DETACHED
  deriving DecidableEq, Repr

/-- The phase a branch is in after a milestone: the drain is requested
once the blocking probe is set, the branch drains once the end-of-stream
handler unlinks it, and it is detached once its path is stopped. -/
def phaseAfter : DetachStep → BranchPhase
  | .block_requested => .DRAIN_REQUESTED
  | .eos_handler_installed => .DRAIN_REQUESTED
  | .eos_injected => .DRAIN_REQUESTED
  | .unlinked => .DRAINING
  | .released => .DRAINING
  | .stopped => .DETACHED

/-- The phases a branch goes through, read off the log: it starts
attached, and a phase is listed each time it changes. -/
def phaseHistory (e : ReceiverEntry) (log : List Action) : List BranchPhase :=
  (BranchPhase.ATTACHED :: (detachTrace e log).map phaseAfter).destutter (· ≠ ·)

/-- The request pads handed back to the tee so far, in log order. -/
def releasesOf (log : List Action) : List PadId :=
  log.filterMap (fun a => match a with
    | Action.release_request_pad pad => some pad
    | _ => none)

/-! ## Outbound signaling: the JSON generator and the WebRTC callbacks -/

/-- A lower-case hexadecimal digit, as `%02x` prints it. -/
def hexDigit (n : Nat) : Char :=
  if n < 10 then Char.ofNat (48 + n) else Char.ofNat (87 + n)

/-- What the generator of json-glib writes for one character of a
string: a backslash before `\` and `"`, the short escapes for
backspace, form feed, newline, carriage return and tab, `\u00XX` for
the other characters from 1 to 30 and for 127, the character itself
otherwise. -/
def json_escape_char (c : Char) : List Char :=
  if c = '\\' ∨ c = '"' then ['\\', c]
  else if (0 < c.toNat ∧ c.toNat < 31) ∨ c.toNat = 127 then
    if c = Char.ofNat 8 then ['\\', 'b']
    else if c = Char.ofNat 12 then ['\\', 'f']
    else if c = '\n' then ['\\', 'n']
    else if c = '\r' then ['\\', 'r']
    else if c = '\t' then ['\\', 't']
    else ['\\', 'u', '0', '0', hexDigit (c.toNat / 16), hexDigit (c.toNat % 16)]
  else [c]

/-- Model of `json_strescape` of the generator: the characters up to
the end of the C string (`strlen`), each escaped. -/
def json_strescape : List Char → List Char
  | [] => []
  | c :: cs => if c = Char.ofNat 0 then [] else json_escape_char c ++ json_strescape cs

/-- The decimal text of a `gint64`. -/
def int_text (i : Int) : List Char :=
  if i < 0 then '-' :: (Nat.repr i.natAbs).data else (Nat.repr i.toNat).data

mutual
/-- The text the generator writes for a node, without indentation (the
generator is used with its default, `pretty` off). -/
def dump_node : JsonNode → List Char
  | .null => ['n', 'u', 'l', 'l']
  | .bool b => if b then ['t', 'r', 'u', 'e'] else ['f', 'a', 'l', 's', 'e']
  | .int i => int_text i
  | .str s => '"' :: json_strescape s.data ++ ['"']
  | .array xs => '[' :: dump_array xs ++ [']']
  | .object ms => Char.ofNat 123 :: dump_object ms ++ [Char.ofNat 125]
/-- The elements of an array, separated by commas. -/
def dump_array : List JsonNode → List Char
  | [] => []
  | [x] => dump_node x
  | x :: y :: rest => dump_node x ++ ',' :: dump_array (y :: rest)
/-- The members of an object in insertion order, separated by commas. -/
def dump_object : List (String × JsonNode) → List Char
  | [] => []
  | [(k, v)] => '"' :: json_strescape k.data ++ '"' :: ':' :: dump_node v
  | (k, v) :: m :: rest =>
    '"' :: json_strescape k.data ++ '"' :: ':' :: dump_node v ++ ',' :: dump_object (m :: rest)
end

/-- Model of `json_generator_to_data` for a root node. -/
def json_generator_to_data (root : JsonNode) : String :=
  String.mk (dump_node root)

/-- Model of `get_string_from_json_object`. -/
def get_string_from_json_object (object : JsonObject) : String :=
  json_generator_to_data (JsonNode.object object)

/-- Model of the call `soup_websocket_connection_send_text`; on a `NULL`
connection the precondition check of libsoup returns at once. The log
records the call of the program. -/
def soup_websocket_connection_send_text (w : World) (connection : Option Conn)
    (text : String) : World :=
  match connection with
  | some c => w.emit (Action.send_text c text)
  | none => w

/-- Model of `on_offer_created_cb`. `offer` is the text of the session
description in the reply of the promise, `none` when the reply holds no
offer. -/
def on_offer_created_cb (w : World) (offer : Option String) (user_data : Ptr) : World :=
  match w.entry user_data with
  | none => w.crash Fault.danglingDeref
  | some receiver_entry =>
    let w1 := w.emit (Action.emit_set_local_description receiver_entry.webrtcbin offer)
    match offer with
    | none => w1.crash Fault.nullDeref
    | some sdp_string =>
      let w2 := w1.emit (Action.g_print "Negotiation offer created:\n%s\n")
      let sdp_json : JsonObject :=
        [("type", JsonNode.str "offer"), ("sdp", JsonNode.str sdp_string)]
      let json_string := get_string_from_json_object sdp_json
      soup_websocket_connection_send_text w2 receiver_entry.connection json_string

/-- Model of `on_negotiation_needed_cb`. -/
def on_negotiation_needed_cb (w : World) (webrtcbin : ElemId) (user_data : Option Ptr) :
    World :=
  match user_data with
  | some receiver_entry =>
    (w.emit (Action.g_print "Creating negotiation offer\n")).emit
      (Action.emit_create_offer webrtcbin receiver_entry)
  | none =>
    w.emit (Action.g_print "\n Cannot create negotiation offer due to invalid connection! \n")

/-- Model of `on_ice_candidate_cb`; `mline_index` is a `guint`. -/
def on_ice_candidate_cb (w : World) (mline_index : Nat) (candidate : String)
    (user_data : Ptr) : World :=
  let ice_data_json : JsonObject :=
    [("sdpMLineIndex", JsonNode.int mline_index), ("candidate", JsonNode.str candidate)]
  let ice_json : JsonObject :=
    [("type", JsonNode.str "ice"), ("candidate", JsonNode.object ice_data_json)]
  let json_string := get_string_from_json_object ice_json
  match w.entry user_data with
  | none => w.crash Fault.danglingDeref
  | some receiver_entry =>
    soup_websocket_connection_send_text w receiver_entry.connection json_string

/-! ## The JSON parser -/

/-- The white space between the tokens of a JSON text. -/
def isJsonWs (c : Char) : Bool :=
  c == ' ' || c == '\t' || c == '\n' || c == '\r'

/-- The text after its leading white space. -/
def skipWs : List Char → List Char
  | [] => []
  | c :: cs => if isJsonWs c then skipWs cs else c :: cs

/-- Value of a hexadecimal digit. -/
def hexVal (c : Char) : Option Nat :=
  if 48 ≤ c.toNat ∧ c.toNat ≤ 57 then some (c.toNat - 48)
  else if 97 ≤ c.toNat ∧ c.toNat ≤ 102 then some (c.toNat - 87)
  else if 65 ≤ c.toNat ∧ c.toNat ≤ 70 then some (c.toNat - 55)
  else none

/-- The character a one-letter escape of JSON stands for. -/
def unescape (e : Char) : Option Char :=
  if e = '"' then some '"'
  else if e = '\\' then some '\\'
  else if e = '/' then some '/'
  else if e = 'b' then some (Char.ofNat 8)
  else if e = 'f' then some (Char.ofNat 12)
  else if e = 'n' then some '\n'
  else if e = 'r' then some '\r'
  else if e = 't' then some '\t'
  else none

/-- Where the scan of a string literal stands: in plain text, right
after a backslash, or inside a `u` escape with `remaining` hexadecimal
digits to read and `value` read so far. -/
inductive ScanState where
  | plain
  | escape
  | hex (remaining value : Nat)
  deriving DecidableEq, Repr

/-- One more character in front of a scanned string. -/
def consChar (c : Char) (r : List Char × List Char) : List Char × List Char :=
  (c :: r.1, r.2)

/-- The scanner of json-glib inside a string literal, one character at
a time: the literal ends at the quote; a backslash starts an escape;
every other character but NUL stands for itself. The escapes are those
of RFC 8259, without surrogate pairs. The result is the string and the
text after the closing quote. -/
def scanString_go : ScanState → List Char → Option (List Char × List Char)
  | _, [] => none
  | .plain, c :: rest =>
    if c = '"' then some ([], rest)
    else if c = '\\' then scanString_go .escape rest
    else if c = Char.ofNat 0 then none
    else (scanString_go .plain rest).map (consChar c)
  | .escape, e :: rest =>
    if e = 'u' then scanString_go (.hex 4 0) rest
    else
      match unescape e with
      | some u => (scanString_go .plain rest).map (consChar u)
      | none => none
  | .hex remaining value, h :: rest =>
    match hexVal h with
    | none => none
    | some x =>
      if remaining ≤ 1 then
        if value * 16 + x = 0 ∨ (55296 ≤ value * 16 + x ∧ value * 16 + x ≤ 57343) then none
        else (scanString_go .plain rest).map (consChar (Char.ofNat (value * 16 + x)))
      else scanString_go (.hex (remaining - 1) (value * 16 + x)) rest

/-- A string literal, from the character after its opening quote. -/
def scanString (s : List Char) : Option (List Char × List Char) :=
  scanString_go .plain s

/-- The digits at the head of the text, added to `acc`, and the text
after them. -/
def scanDigits : List Char → Nat → Nat × List Char
  | [], acc => (acc, [])
  | c :: cs, acc =>
    if c.isDigit then scanDigits cs (acc * 10 + (c.toNat - 48)) else (acc, c :: cs)

/-- Whether the text goes on as a fraction or an exponent. -/
def isFractionStart (s : List Char) : Bool :=
  match s with
  | c :: _ => c == '.' || c == 'e' || c == 'E'
  | [] => false

/-- An integer literal. A number with a fraction or an exponent is
outside the embedding and is refused. -/
def scanInt (s : List Char) : Option (Int × List Char) :=
  match s with
  | [] => none
  | c :: cs =>
    if c = '-' then
      match cs with
      | d :: _ =>
        if d.isDigit then
          let r := scanDigits cs 0
          if isFractionStart r.2 then none else some (-(r.1 : Int), r.2)
        else none
      | [] => none
    else if c.isDigit then
      let r := scanDigits (c :: cs) 0
      if isFractionStart r.2 then none else some ((r.1 : Int), r.2)
    else none

/-- A member is added to an object; it replaces an older member of the
same name. -/
def objInsert (ms : JsonObject) (k : String) (v : JsonNode) : JsonObject :=
  ms.filter (fun m => m.1 ≠ k) ++ [(k, v)]

mutual
/-- A JSON value and the text after it; `fuel` bounds the nesting. -/
def parseValue : Nat → List Char → Option (JsonNode × List Char)
  | 0, _ => none
  | fuel + 1, s =>
    match skipWs s with
    | [] => none
    | c :: r =>
      if c = '"' then
        match scanString r with
        | some x => some (JsonNode.str (String.mk x.1), x.2)
        | none => none
      else if c = Char.ofNat 123 then
        match skipWs r with
        | [] => none
        | c1 :: r1 =>
          if c1 = Char.ofNat 125 then some (JsonNode.object [], r1)
          else
            match parseMembers fuel [] (c1 :: r1) with
            | some x => some (JsonNode.object x.1, x.2)
            | none => none
      else if c = '[' then
        match skipWs r with
        | [] => none
        | c1 :: r1 =>
          if c1 = ']' then some (JsonNode.array [], r1)
          else
            match parseElements fuel [] (c1 :: r1) with
            | some x => some (JsonNode.array x.1, x.2)
            | none => none
      else if ['t', 'r', 'u', 'e'].isPrefixOf (c :: r) then
        some (JsonNode.bool true, (c :: r).drop 4)
      else if ['f', 'a', 'l', 's', 'e'].isPrefixOf (c :: r) then
        some (JsonNode.bool false, (c :: r).drop 5)
      else if ['n', 'u', 'l', 'l'].isPrefixOf (c :: r) then
        some (JsonNode.null, (c :: r).drop 4)
      else
        match scanInt (c :: r) with
        | some x => some (JsonNode.int x.1, x.2)
        | none => none
/-- The members of an object, from the quote of a member name to the
closing brace. -/
def parseMembers : Nat → JsonObject → List Char → Option (JsonObject × List Char)
  | 0, _, _ => none
  | fuel + 1, acc, s =>
    match s with
    | [] => none
    | q :: r =>
      if q = '"' then
        match scanString r with
        | none => none
        | some k =>
          match skipWs k.2 with
          | [] => none
          | colon :: r2 =>
            if colon = ':' then
              match parseValue fuel r2 with
              | none => none
              | some v =>
                match skipWs v.2 with
                | [] => none
                | sep :: r4 =>
                  if sep = ',' then
                    parseMembers fuel (objInsert acc (String.mk k.1) v.1) (skipWs r4)
                  else if sep = Char.ofNat 125 then
                    some (objInsert acc (String.mk k.1) v.1, r4)
                  else none
            else none
      else none
/-- The elements of an array, up to the closing bracket. -/
def parseElements : Nat → List JsonNode → List Char → Option (List JsonNode × List Char)
  | 0, _, _ => none
  | fuel + 1, acc, s =>
    match parseValue fuel s with
    | none => none
    | some v =>
      match skipWs v.2 with
      | [] => none
      | sep :: r =>
        if sep = ',' then parseElements fuel (acc ++ [v.1]) r
        else if sep = ']' then some (acc ++ [v.1], r)
        else none
end

/-- Model of `json_parser_load_from_data` followed by
`json_parser_get_root`: the root node of a JSON text, `none` when the
text is refused. The fuel of the descent is the length of the text. -/
def json_parser_load_from_data (data : String) : Option JsonNode :=
  match parseValue (data.length + 1) data.data with
  | some x => if skipWs x.2 = [] then some x.1 else none
  | none => none


/-- The text of an `offer` message up to the description. -/
def offerHead : List Char :=
  [Char.ofNat 123, '"', 't', 'y', 'p', 'e', '"', ':', '"', 'o', 'f', 'f', 'e', 'r', '"', ',',
    '"', 's', 'd', 'p', '"', ':', '"']

/-- A process with one session: from the initial state, connection 7
has connected from 203.0.113.5 and its branch has started. -/
def sampleWorld : World :=
  soup_websocket_handler World.init 7 (some "203.0.113.5")
    GstStateChangeReturn.SUCCESS GstStateChangeReturn.SUCCESS

/-- A stack that affords 10000 nested calls of the matcher. -/
def sampleStack : Nat := 10000

/-- The entry of that session, at address 1. -/
def sampleEntry : ReceiverEntry :=
  { connection := some 7, r_table := false, pipeline := 2, webrtcbin := 4, queue := 3,
    client_ip := "203.0.113.5", tee_src_pad := 6, sink_pad := 5 }

theorem handler_closed (w : World) (c : Conn) (remote : Option String)
    (r1 r2 : GstStateChangeReturn) (h : w.available = false) :
    soup_websocket_handler w c remote r1 r2
      = { w with
          log := w.log ++ [Action.g_print "\nProcessing new websocket connection %p\n",
            Action.g_print "\nServer still not available yet! \n"],
          handlers := w.handlers ++ [Handler.closed c] } := by
  simp [soup_websocket_handler, h, World.emit]

theorem handler_open (w : World) (c : Conn) (remote : Option String)
    (r1 r2 : GstStateChangeReturn) (h : w.available = true) :
    (soup_websocket_handler w c remote r1 r2).available = false
      ∧ sessionsCreated (soup_websocket_handler w c remote r1 r2) ≤ sessionsCreated w + 1 := by
  cases remote with
  | none => simp [soup_websocket_handler, h, World.emit, sessionsCreated, List.filter_append]
  | some ip =>
    by_cases hf : r1 = GstStateChangeReturn.FAILURE
    · simp [soup_websocket_handler, h, World.emit, sessionsCreated, List.filter_append,
        create_receiver_entry, hf, World.g_error]
    · by_cases hg : r2 = GstStateChangeReturn.SUCCESS ∨ r2 = GstStateChangeReturn.NO_PREROLL
      · cases hl : w.table.lookup c <;>
        simp [soup_websocket_handler, h, World.emit, sessionsCreated, List.filter_append,
          create_receiver_entry, hf, hg, g_hash_table_replace, destroy_receiver_entry, hl]
      · cases hl : w.table.lookup c <;>
        simp [soup_websocket_handler, h, World.emit, sessionsCreated, List.filter_append,
          create_receiver_entry, hf, hg, g_hash_table_replace, destroy_receiver_entry, hl]

theorem handler_open_session (w : World) (c : Conn) (ip : String)
    (r1 r2 : GstStateChangeReturn) (h : w.available = true)
    (hf : r1 ≠ GstStateChangeReturn.FAILURE) :
    (soup_websocket_handler w c (some ip) r1 r2).table.lookup c = some w.nextId
      ∧ sessionsCreated (soup_websocket_handler w c (some ip) r1 r2)
          = sessionsCreated w + 1 := by
  by_cases hg : r2 = GstStateChangeReturn.SUCCESS ∨ r2 = GstStateChangeReturn.NO_PREROLL
  · cases hl : w.table.lookup c <;>
    simp [soup_websocket_handler, h, World.emit, sessionsCreated, List.filter_append,
      create_receiver_entry, hf, hg, g_hash_table_replace, destroy_receiver_entry, hl,
      List.lookup]
  · cases hl : w.table.lookup c <;>
    simp [soup_websocket_handler, h, World.emit, sessionsCreated, List.filter_append,
      create_receiver_entry, hf, hg, g_hash_table_replace, destroy_receiver_entry, hl,
      List.lookup]

theorem admissionRun_closed (evs : List AdmissionEvent) :
    ∀ w : World, w.available = false ∨ w.fault.isSome = true →
      AdmissionEvent.timer ∉ evs →
      sessionsCreated (admissionRun w evs) = sessionsCreated w := by
  induction evs with
  | nil => intro w _ _; rfl
  | cons ev evs ih =>
    intro w hw ht
    have ht1 : ev ≠ AdmissionEvent.timer := fun e => ht (by simp [e])
    have ht2 : AdmissionEvent.timer ∉ evs := fun e => ht (by simp [e])
    show sessionsCreated (admissionRun (admissionStep w ev) evs) = sessionsCreated w
    by_cases hfault : w.fault.isSome = true
    · have hs : admissionStep w ev = w := by simp [admissionStep, hfault]
      rw [hs]
      exact ih w (Or.inr hfault) ht2
    · have ha : w.available = false := by
        rcases hw with h | h
        · exact h
        · exact absurd h hfault
      cases ev with
      | timer => exact absurd rfl ht1
      | connect c remote r1 r2 =>
        have hs : admissionStep w (.connect c remote r1 r2)
            = soup_websocket_handler w c remote r1 r2 := by
          simp [admissionStep, hfault]
        rw [hs, handler_closed w c remote r1 r2 ha]
        rw [ih _ (Or.inl (by simpa using ha)) ht2]
        simp [sessionsCreated, List.filter_append]

theorem admissionRun_append (w : World) (pre seg : List AdmissionEvent) :
    admissionRun w (pre ++ seg) = admissionRun (admissionRun w pre) seg := by
  simp [admissionRun, List.foldl_append]

theorem admissionRun_le (evs : List AdmissionEvent) (w : World)
    (ht : AdmissionEvent.timer ∉ evs) :
    sessionsCreated (admissionRun w evs) ≤ sessionsCreated w + 1 := by
  cases evs with
  | nil => exact Nat.le_succ _
  | cons ev evs =>
    have ht1 : ev ≠ AdmissionEvent.timer := fun e => ht (by simp [e])
    have ht2 : AdmissionEvent.timer ∉ evs := fun e => ht (by simp [e])
    show sessionsCreated (admissionRun (admissionStep w ev) evs) ≤ sessionsCreated w + 1
    by_cases hfault : w.fault.isSome = true
    · have hs : admissionStep w ev = w := by simp [admissionStep, hfault]
      rw [hs, admissionRun_closed evs w (Or.inr hfault) ht2]
      exact Nat.le_succ _
    · cases ev with
      | timer => exact absurd rfl ht1
      | connect c remote r1 r2 =>
        have hs : admissionStep w (.connect c remote r1 r2)
            = soup_websocket_handler w c remote r1 r2 := by
          simp [admissionStep, hfault]
        rw [hs]
        cases ha : w.available with
        | false =>
          rw [← hs, ← show admissionRun w (AdmissionEvent.connect c remote r1 r2 :: evs)
            = admissionRun (admissionStep w (.connect c remote r1 r2)) evs from rfl,
            admissionRun_closed _ w (Or.inl ha) ht]
          exact Nat.le_succ _
        | true =>
          obtain ⟨h1, h2⟩ := handler_open w c remote r1 r2 ha
          rw [admissionRun_closed evs _ (Or.inl h1) ht2]
          exact h2

/-! ## C2: the admission step -/

/-- C2: in every process state, a connect event that finds the flag
`available` open closes it and, when the viewer has an internet address
and the branch starts, registers one new session for the connection; a
connect event that finds the flag closed is rejected: apart from two log
lines and the `closed` handler, which is connected before the check, the
state is the one before, so no session is created, no branch is attached
and the registry and the flag are unchanged. -/
theorem admission_step (w : World) (c : Conn) (remote : Option String)
    (r1 r2 : GstStateChangeReturn) :
    (w.available = true →
      (soup_websocket_handler w c remote r1 r2).available = false
        ∧ ∀ ip, remote = some ip → r1 ≠ GstStateChangeReturn.FAILURE →
            (soup_websocket_handler w c remote r1 r2).table.lookup c = some w.nextId
              ∧ sessionsCreated (soup_websocket_handler w c remote r1 r2)
                  = sessionsCreated w + 1)
    ∧ (w.available = false →
      soup_websocket_handler w c remote r1 r2
        = { w with
            log := w.log ++ [Action.g_print "\nProcessing new websocket connection %p\n",
              Action.g_print "\nServer still not available yet! \n"],
            handlers := w.handlers ++ [Handler.closed c] }) := by
  refine ⟨fun h => ⟨(handler_open w c remote r1 r2 h).1, ?_⟩, handler_closed w c remote r1 r2⟩
  rintro ip rfl hf
  exact handler_open_session w c ip r1 r2 h hf

/-- C2, witness: the first connection of a fresh process is admitted, a
second one right after it is rejected. -/
theorem admission_step_witness :
    ((soup_websocket_handler World.init 7 (some "203.0.113.5")
          GstStateChangeReturn.SUCCESS GstStateChangeReturn.SUCCESS).available = false
      ∧ (soup_websocket_handler World.init 7 (some "203.0.113.5")
          GstStateChangeReturn.SUCCESS GstStateChangeReturn.SUCCESS).table.lookup 7 = some 1)
    ∧ soup_websocket_handler sampleWorld 8 (some "198.51.100.9")
          GstStateChangeReturn.SUCCESS GstStateChangeReturn.SUCCESS
        = { sampleWorld with
            log := sampleWorld.log
              ++ [Action.g_print "\nProcessing new websocket connection %p\n",
                Action.g_print "\nServer still not available yet! \n"],
            handlers := sampleWorld.handlers ++ [Handler.closed 8] } :=
  ⟨⟨((admission_step World.init 7 (some "203.0.113.5") GstStateChangeReturn.SUCCESS
        GstStateChangeReturn.SUCCESS).1 (by decide)).1,
    (((admission_step World.init 7 (some "203.0.113.5") GstStateChangeReturn.SUCCESS
        GstStateChangeReturn.SUCCESS).1 (by decide)).2 "203.0.113.5" rfl (by decide)).1⟩,
   (admission_step sampleWorld 8 (some "198.51.100.9") GstStateChangeReturn.SUCCESS
      GstStateChangeReturn.SUCCESS).2 (by decide)⟩

/-! ## C3: at most one admission between two timer resets -/

/-- C3: from any state and after any sequence `pre` of connect events
and timer resets, a further stretch `seg` of connect events without a
timer reset creates at most one session. -/
theorem admission_at_most_one_per_window (w : World) (pre seg : List AdmissionEvent)
    (h : AdmissionEvent.timer ∉ seg) :
    sessionsCreated (admissionRun w (pre ++ seg))
      ≤ sessionsCreated (admissionRun w pre) + 1 := by
  rw [admissionRun_append]
  exact admissionRun_le seg _ h

/-- C3, witness: after a reset, of three connects in a row only the
first creates a session. -/
theorem admission_at_most_one_per_window_witness :
    AdmissionEvent.timer ∉
        [AdmissionEvent.connect 8 (some "198.51.100.9") .SUCCESS .SUCCESS,
         AdmissionEvent.connect 9 (some "198.51.100.10") .SUCCESS .SUCCESS,
         AdmissionEvent.connect 10 (some "198.51.100.11") .SUCCESS .SUCCESS]
    ∧ sessionsCreated (admissionRun sampleWorld ([AdmissionEvent.timer] ++
        [AdmissionEvent.connect 8 (some "198.51.100.9") .SUCCESS .SUCCESS,
         AdmissionEvent.connect 9 (some "198.51.100.10") .SUCCESS .SUCCESS,
         AdmissionEvent.connect 10 (some "198.51.100.11") .SUCCESS .SUCCESS]))
      ≤ sessionsCreated (admissionRun sampleWorld [AdmissionEvent.timer]) + 1 :=
  ⟨by decide, admission_at_most_one_per_window sampleWorld [AdmissionEvent.timer] _ (by decide)⟩

/-! ## C6: a message of an unknown kind -/

/-- C6: for every inbound text message that is a JSON object whose
`type` is a string other than `answer` and `ice-candidate`, the handler
appends exactly one warning to the log and changes nothing else: the
sessions stay as they are, no call reaches the WebRTC element and
nothing is sent. -/
theorem unknown_kind_ignored (sdp_ok : String → Bool) (stack : Nat) (w : World)
    (user_data : Ptr)
    (data : String) (root : JsonObject) (t : String)
    (htype : root.lookup "type" = some (.str t))
    (h1 : t ≠ "answer") (h2 : t ≠ "ice-candidate") :
    soup_websocket_message_cb sdp_ok stack w .TEXT ⟨data, some (.object root)⟩ user_data
      = { w with
          log := w.log ++ [Action.g_warning ("Unknown message \"" ++ data ++ "\", ignoring")] } := by
  simp [soup_websocket_message_cb, json_node_get_object, json_object_has_member,
    json_object_get_string_member, htype, h1, h2, unknown_message, World.emit]

/-- C6, witness: the object whose only member is `type`, with the
value `bogus`. -/
theorem unknown_kind_ignored_witness :
    soup_websocket_message_cb (fun _ => true) sampleStack sampleWorld .TEXT
        ⟨"\x7b\"type\":\"bogus\"\x7d", some (.object [("type", .str "bogus")])⟩ 1
      = { sampleWorld with
          log := sampleWorld.log
            ++ [Action.g_warning
              ("Unknown message \"" ++ "\x7b\"type\":\"bogus\"\x7d" ++ "\", ignoring")] } :=
  unknown_kind_ignored (fun _ => true) sampleStack sampleWorld 1 _ [("type", .str "bogus")]
    "bogus"
    rfl (by decide) (by decide)

/-! ## C7, C8: messages that end in `g_error` -/

/-- C7, the code at the failing input: the empty object has no `type`
member; the handler calls `g_error`, and the process aborts. -/
theorem missing_type_aborts :
    soup_websocket_message_cb (fun _ => true) sampleStack sampleWorld .TEXT
        ⟨"\x7b\x7d", some (.object [])⟩ 1
      = { sampleWorld with
          log := sampleWorld.log ++ [Action.g_error "Received message without type field\n"],
          fault := some Fault.abort } := by
  decide

/-- C8, the code at the failing inputs: an `answer` without `sdp`, and
an `answer` whose `sdp` is the empty string, which the parser rejects
(it requires a size other than 0). In both the handler calls
`g_error` and the process aborts; `set-remote-description` is not
emitted. -/
theorem malformed_answer_aborts :
    soup_websocket_message_cb (fun _ => true) sampleStack sampleWorld .TEXT
        ⟨"\x7b\"type\":\"answer\"\x7d", some (.object [("type", .str "answer")])⟩ 1
      = { sampleWorld with
          log := sampleWorld.log
            ++ [Action.g_error "Received SDP message without SDP string\n"],
          fault := some Fault.abort }
    ∧ soup_websocket_message_cb (fun s => s ≠ "") sampleStack sampleWorld .TEXT
        ⟨"\x7b\"type\":\"answer\",\"sdp\":\"\"\x7d",
          some (.object [("type", .str "answer"), ("sdp", .str "")])⟩ 1
      = { sampleWorld with
          log := sampleWorld.log
            ++ [Action.g_print "Received SDP answer:\n%s\n",
              Action.g_error "Could not parse SDP string\n"],
          fault := some Fault.abort } := by
  decide

/-! ## C9: `closed` for a connection that has no session -/

/-- C9, the code at the failing input: connection 8 arrives while the
flag is closed, so it gets the `closed` handler but no session; when it
closes, the lookup finds nothing and the store to `r_table` goes through
the `NULL` pointer. -/
theorem closed_unknown_connection_faults :
    Handler.closed 8 ∈ (soup_websocket_handler sampleWorld 8 (some "198.51.100.9")
        GstStateChangeReturn.SUCCESS GstStateChangeReturn.SUCCESS).handlers
    ∧ (soup_websocket_handler sampleWorld 8 (some "198.51.100.9")
        GstStateChangeReturn.SUCCESS GstStateChangeReturn.SUCCESS).table.lookup 8 = none
    ∧ (soup_websocket_closed_cb (soup_websocket_handler sampleWorld 8 (some "198.51.100.9")
        GstStateChangeReturn.SUCCESS GstStateChangeReturn.SUCCESS) 8).fault
        = some Fault.nullDeref := by
  decide

/-! ## C10: `soup_websocket_closed_cb` called twice -/

theorem lookup_map_r_table (p : Ptr) (e : ReceiverEntry) :
    ∀ heap : List (Ptr × ReceiverEntry), heap.lookup p = some e →
      (heap.map (mark_r_table p)).lookup p = some { e with r_table := true }
  | [], h => by simp at h
  | (k, v) :: rest, h => by
    rw [List.map_cons]
    by_cases hk : p = k
    · subst hk
      have hm : mark_r_table p (p, v) = (p, { v with r_table := true }) := by
        simp [mark_r_table]
      have hv : v = e := by simpa [List.lookup_cons] using h
      rw [hm, List.lookup_cons, hv]
      simp
    · have hk2 : (p == k) = false := by simpa using hk
      have hk3 : ¬ k = p := fun e => hk e.symm
      have hm : mark_r_table p (k, v) = (k, v) := by simp [mark_r_table, hk3]
      rw [List.lookup_cons, hk2] at h
      rw [hm, List.lookup_cons, hk2]
      exact lookup_map_r_table p e rest h

theorem closed_cb_registered (w : World) (c : Conn) (p : Ptr) (e : ReceiverEntry)
    (hl : w.table.lookup c = some p) (he : w.entry p = some e) :
    soup_websocket_closed_cb w c
      = gst_pad_add_probe (set_r_table w p) e.tee_src_pad ProbeKind.pad_probe_cb (some p) := by
  simp only [soup_websocket_closed_cb, hl, he]

/-- C10, as amended: the call is not idempotent. For every registered
session, each call of `soup_websocket_closed_cb` installs one more
blocking probe on the tee pad of the session and logs that one call, so
after two calls two probes stand on the pad. -/
theorem closed_cb_installs_probe_each_call (w : World) (c : Conn) (p : Ptr)
    (e : ReceiverEntry) (hl : w.table.lookup c = some p) (he : w.entry p = some e) :
    (soup_websocket_closed_cb w c).probes
        = w.probes ++ [⟨w.nextId, e.tee_src_pad, ProbeKind.pad_probe_cb, some p⟩]
    ∧ (soup_websocket_closed_cb w c).log
        = w.log ++ [Action.pad_add_probe e.tee_src_pad ProbeKind.pad_probe_cb (some p)]
    ∧ (soup_websocket_closed_cb (soup_websocket_closed_cb w c) c).probes
        = w.probes ++ [⟨w.nextId, e.tee_src_pad, ProbeKind.pad_probe_cb, some p⟩,
            ⟨w.nextId + 1, e.tee_src_pad, ProbeKind.pad_probe_cb, some p⟩]
    ∧ (soup_websocket_closed_cb (soup_websocket_closed_cb w c) c).log
        = w.log ++ [Action.pad_add_probe e.tee_src_pad ProbeKind.pad_probe_cb (some p),
            Action.pad_add_probe e.tee_src_pad ProbeKind.pad_probe_cb (some p)] := by
  have h1 := closed_cb_registered w c p e hl he
  have hl2 : (soup_websocket_closed_cb w c).table.lookup c = some p := by
    rw [h1]; simpa [gst_pad_add_probe, set_r_table] using hl
  have he2 : (soup_websocket_closed_cb w c).entry p = some { e with r_table := true } := by
    rw [h1]
    simpa [gst_pad_add_probe, set_r_table, World.entry] using lookup_map_r_table p e w.heap he
  have h2 := closed_cb_registered _ c p _ hl2 he2
  refine ⟨?_, ?_, ?_, ?_⟩
  · rw [h1]; simp [gst_pad_add_probe, set_r_table]
  · rw [h1]; simp [gst_pad_add_probe, set_r_table]
  · rw [h2, h1]; simp [gst_pad_add_probe, set_r_table]
  · rw [h2, h1]; simp [gst_pad_add_probe, set_r_table]

/-- C10, witness: the sample session, closed twice. -/
theorem closed_cb_installs_probe_each_call_witness :
    (soup_websocket_closed_cb (soup_websocket_closed_cb sampleWorld 7) 7).probes
      = sampleWorld.probes ++ [⟨sampleWorld.nextId, sampleEntry.tee_src_pad,
            ProbeKind.pad_probe_cb, some 1⟩,
          ⟨sampleWorld.nextId + 1, sampleEntry.tee_src_pad, ProbeKind.pad_probe_cb, some 1⟩] :=
  (closed_cb_installs_probe_each_call sampleWorld 7 1 sampleEntry (by decide) (by decide)).2.2.1

/-- C10, counterexample: for the sample session, two calls leave a state
other than one call does: two blocking probes stand on the tee pad. -/
theorem closed_cb_twice_counterexample :
    soup_websocket_closed_cb (soup_websocket_closed_cb sampleWorld 7) 7
        ≠ soup_websocket_closed_cb sampleWorld 7
    ∧ (probesOn (soup_websocket_closed_cb sampleWorld 7) 6 ProbeKind.pad_probe_cb).length = 1
    ∧ (probesOn (soup_websocket_closed_cb (soup_websocket_closed_cb sampleWorld 7) 7) 6
        ProbeKind.pad_probe_cb).length = 2 := by
  decide

/-! ## C5: the end-of-stream handler releases the handle -/

theorem lookup_filter_key (c : Conn) (l : List (Conn × Ptr)) :
    (l.filter (fun q => q.1 ≠ c)).lookup c = none := by
  simp
  intro a b _ h e
  exact h e.symm

theorem g_hash_table_remove_spec (w : World) (c : Conn) :
    (g_hash_table_remove w c).table.lookup c = none
      ∧ (g_hash_table_remove w c).teePads = w.teePads
      ∧ (g_hash_table_remove w c).fault = w.fault
      ∧ (g_hash_table_remove w c).log = w.log ++ [Action.hash_table_remove c]
      ∧ (g_hash_table_remove w c).probes = w.probes := by
  unfold g_hash_table_remove
  cases h : w.table.lookup c with
  | none => simp [World.emit, h]
  | some q =>
    refine ⟨?_, ?_, ?_, ?_, ?_⟩
    · simpa [World.emit, h, destroy_receiver_entry] using lookup_filter_key c w.table
    · simp [World.emit, h, destroy_receiver_entry]
    · simp [World.emit, h, destroy_receiver_entry]
    · simp [World.emit, h, destroy_receiver_entry]
    · simp [World.emit, h, destroy_receiver_entry]

theorem stop_sub_pipeline_spec (w : World) (e : ReceiverEntry)
    (r1 r2 : GstStateChangeReturn) :
    (stop_sub_pipeline w e r1 r2).table = w.table
      ∧ (stop_sub_pipeline w e r1 r2).teePads = w.teePads
      ∧ (stop_sub_pipeline w e r1 r2).fault = w.fault
      ∧ (stop_sub_pipeline w e r1 r2).probes = w.probes
      ∧ releasesOf (stop_sub_pipeline w e r1 r2).log = releasesOf w.log
      ∧ detachTrace e (stop_sub_pipeline w e r1 r2).log
          = detachTrace e w.log ++ [DetachStep.stopped] := by
  cases r1 <;> cases r2 <;>
    simp [stop_sub_pipeline, World.emit, gst_bin_remove, releasesOf, List.filterMap_append,
      detachTrace, detachStepOf]

/-- What `event_probe_cb` does on end-of-stream for a live entry that
holds its connection and points to the registry. -/
theorem event_probe_cb_eos (w : World) (pad : PadId) (id : Nat) (p : Ptr)
    (e : ReceiverEntry) (c : Conn) (r1 r2 : GstStateChangeReturn)
    (he : w.entry p = some e) (hc : e.connection = some c) (hr : e.r_table = true) :
    releasesOf (event_probe_cb w pad id true (some p) r1 r2).1.log
        = releasesOf w.log ++ [e.tee_src_pad]
    ∧ e.tee_src_pad ∉ (event_probe_cb w pad id true (some p) r1 r2).1.teePads
    ∧ (event_probe_cb w pad id true (some p) r1 r2).1.table.lookup c = none
    ∧ (event_probe_cb w pad id true (some p) r1 r2).1.fault = w.fault
    ∧ (event_probe_cb w pad id true (some p) r1 r2).2 = GstPadProbeReturn.DROP
    ∧ (event_probe_cb w pad id true (some p) r1 r2).1.probes
        = w.probes.filter (fun q => !(q.pad == pad && q.id == id))
    ∧ detachTrace e (event_probe_cb w pad id true (some p) r1 r2).1.log
        = detachTrace e w.log
          ++ [DetachStep.unlinked, DetachStep.released, DetachStep.stopped] := by
  have he2 : ((w.emit (Action.g_print "\nWebrtcbin received EOS\n")).emit
      (Action.g_print "\nStart tearing down Webrtcbin sub-pipeline\n")).entry p = some e := by
    simpa [World.emit, World.entry] using he
  simp only [event_probe_cb, Bool.not_true, Bool.false_eq_true, if_false, he2, hc, hr, if_true]
  generalize hw5 : gst_element_release_request_pad _ e.tee_src_pad = w5
  obtain ⟨s1, s2, s3, s5, s4, s6⟩ := stop_sub_pipeline_spec w5 e r1 r2
  obtain ⟨g1, g2, g3, g4, g5⟩ := g_hash_table_remove_spec (stop_sub_pipeline w5 e r1 r2) c
  have hrel : releasesOf w5.log = releasesOf w.log ++ [e.tee_src_pad] := by
    rw [← hw5]
    simp [gst_element_release_request_pad, World.emit, gst_pad_remove_probe, releasesOf,
      List.filterMap_append]
  have htr : detachTrace e w5.log
      = detachTrace e w.log ++ [DetachStep.unlinked, DetachStep.released] := by
    rw [← hw5]
    simp [gst_element_release_request_pad, World.emit, gst_pad_remove_probe, detachTrace,
      detachStepOf, List.filterMap_append]
  have hpads : e.tee_src_pad ∉ w5.teePads := by
    rw [← hw5]
    simp [gst_element_release_request_pad]
  have hfault : w5.fault = w.fault := by
    rw [← hw5]
    simp [gst_element_release_request_pad, World.emit, gst_pad_remove_probe]
  have hprobes : w5.probes = w.probes.filter (fun q => !(q.pad == pad && q.id == id)) := by
    rw [← hw5]
    simp [gst_element_release_request_pad, World.emit, gst_pad_remove_probe]
  refine ⟨?_, ?_, ?_, ?_, trivial, ?_, ?_⟩
  · simp only [World.emit, g4]
    simp only [releasesOf, List.filterMap_append] at s4 hrel ⊢
    rw [s4, hrel]
    simp
  · simpa [World.emit, g2, s2] using hpads
  · simpa [World.emit] using g1
  · simp [World.emit, g3, s3, hfault]
  · simp [World.emit, g5, s5, hprobes]
  · simp only [World.emit, g4]
    simp only [detachTrace, List.filterMap_append] at s6 htr ⊢
    rw [s6, htr]
    simp [detachStepOf]

/-- C5: when the end-of-stream event reaches the handler of a closing
branch (its entry is live, holds its connection and points to the
registry), then for every result of the two state-change calls the
handler hands the tee pad of the branch back exactly once, the pad is no
longer among the pads of the tee, the registry has no entry for the
connection, the process keeps running and the event is dropped. -/
theorem eos_releases_handle_once (w : World) (pad : PadId) (id : Nat) (p : Ptr)
    (e : ReceiverEntry) (c : Conn) (r1 r2 : GstStateChangeReturn)
    (he : w.entry p = some e) (hc : e.connection = some c) (hr : e.r_table = true) :
    releasesOf (event_probe_cb w pad id true (some p) r1 r2).1.log
        = releasesOf w.log ++ [e.tee_src_pad]
    ∧ e.tee_src_pad ∉ (event_probe_cb w pad id true (some p) r1 r2).1.teePads
    ∧ (event_probe_cb w pad id true (some p) r1 r2).1.table.lookup c = none
    ∧ (event_probe_cb w pad id true (some p) r1 r2).1.fault = w.fault
    ∧ (event_probe_cb w pad id true (some p) r1 r2).2 = GstPadProbeReturn.DROP := by
  obtain ⟨h1, h2, h3, h4, h5, _, _⟩ := event_probe_cb_eos w pad id p e c r1 r2 he hc hr
  exact ⟨h1, h2, h3, h4, h5⟩

/-- C5, witness: the sample session after its close, with the
end-of-stream handler called while the state change fails. -/
theorem eos_releases_handle_once_witness :
    releasesOf (event_probe_cb (soup_websocket_closed_cb sampleWorld 7) 5 9 true (some 1)
        GstStateChangeReturn.FAILURE GstStateChangeReturn.FAILURE).1.log
      = releasesOf (soup_websocket_closed_cb sampleWorld 7).log ++ [6]
    ∧ (event_probe_cb (soup_websocket_closed_cb sampleWorld 7) 5 9 true (some 1)
        GstStateChangeReturn.FAILURE GstStateChangeReturn.FAILURE).1.table.lookup 7 = none :=
  ⟨(eos_releases_handle_once (soup_websocket_closed_cb sampleWorld 7) 5 9 1
      { sampleEntry with r_table := true } 7 GstStateChangeReturn.FAILURE
      GstStateChangeReturn.FAILURE (by decide) (by decide) (by decide)).1,
   (eos_releases_handle_once (soup_websocket_closed_cb sampleWorld 7) 5 9 1
      { sampleEntry with r_table := true } 7 GstStateChangeReturn.FAILURE
      GstStateChangeReturn.FAILURE (by decide) (by decide) (by decide)).2.2.1⟩

/-! ## C4: the order of the detach -/

theorem pipelineStep_no_probes (w : World) (ev : PipelineEvent) (h : w.probes = []) :
    pipelineStep w ev = w := by
  unfold pipelineStep
  split
  · rfl
  · cases ev <;> simp [probesOn, h, run_block_probes, run_event_probes]

theorem pipelineRun_no_probes (evs : List PipelineEvent) :
    ∀ w : World, w.probes = [] → pipelineRun w evs = w := by
  induction evs with
  | nil => intro w _; rfl
  | cons ev evs ih =>
    intro w h
    show pipelineRun (pipelineStep w ev) evs = w
    rw [pipelineStep_no_probes w ev h]
    exact ih w h

/-- The world in which `pad_probe_cb` sends the end-of-stream event. -/
theorem pad_probe_cb_chain (w : World) (n : Nat) (p : Ptr) (e : ReceiverEntry) (c : Conn)
    (r1 r2 : GstStateChangeReturn)
    (hp : w.probes = [⟨n, e.tee_src_pad, ProbeKind.pad_probe_cb, some p⟩])
    (he : w.entry p = some e) (hc : e.connection = some c) (hr : e.r_table = true)
    (hf : w.fault = none) :
    (pad_probe_cb w e.tee_src_pad n (some p) r1 r2).1.probes = []
    ∧ (pad_probe_cb w e.tee_src_pad n (some p) r1 r2).1.fault = none
    ∧ (pad_probe_cb w e.tee_src_pad n (some p) r1 r2).1.table.lookup c = none
    ∧ detachTrace e (pad_probe_cb w e.tee_src_pad n (some p) r1 r2).1.log
        = detachTrace e w.log ++ [DetachStep.eos_handler_installed, DetachStep.eos_injected,
            DetachStep.unlinked, DetachStep.released, DetachStep.stopped] := by
  generalize hw4 : (gst_pad_add_probe (gst_pad_remove_probe
      (w.emit (Action.g_print "\ntee src pad is blocked now\n")) e.tee_src_pad n)
      e.sink_pad ProbeKind.event_probe_cb (some p)).emit (Action.pad_send_eos e.sink_pad) = w4
  have h4p : w4.probes = [⟨w.nextId, e.sink_pad, ProbeKind.event_probe_cb, some p⟩] := by
    rw [← hw4]; simp [gst_pad_add_probe, gst_pad_remove_probe, World.emit, hp]
  have h4e : w4.entry p = some e := by
    rw [← hw4]; simpa [gst_pad_add_probe, gst_pad_remove_probe, World.emit, World.entry] using he
  have h4f : w4.fault = none := by
    rw [← hw4]; simpa [gst_pad_add_probe, gst_pad_remove_probe, World.emit] using hf
  have h4t : detachTrace e w4.log = detachTrace e w.log
      ++ [DetachStep.eos_handler_installed, DetachStep.eos_injected] := by
    rw [← hw4]
    simp [gst_pad_add_probe, gst_pad_remove_probe, World.emit, detachTrace, detachStepOf,
      List.filterMap_append]
  obtain ⟨_, _, e3, e4, e5, e6, e7⟩ := event_probe_cb_eos w4 e.sink_pad w.nextId p e c r1 r2
    h4e hc hr
  have hrun : (pad_probe_cb w e.tee_src_pad n (some p) r1 r2).1
      = (event_probe_cb w4 e.sink_pad w.nextId true (some p) r1 r2).1 := by
    have he2 : (gst_pad_remove_probe (w.emit (Action.g_print "\ntee src pad is blocked now\n"))
        e.tee_src_pad n).entry p = some e := by
      simpa [gst_pad_remove_probe, World.emit, World.entry] using he
    simp only [pad_probe_cb, he2, gst_pad_send_eos, hw4, probesOn, h4p]
    simp [run_event_probes, h4f, h4p, e5]
  rw [hrun]
  refine ⟨?_, ?_, e3, ?_⟩
  · rw [e6, h4p]; simp
  · rw [e4, h4f]
  · rw [e7, h4t]; simp

theorem closing_step_other (w : World) (n : Nat) (p : Ptr) (e : ReceiverEntry)
    (hp : w.probes = [⟨n, e.tee_src_pad, ProbeKind.pad_probe_cb, some p⟩])
    (ev : PipelineEvent) (hev : ∀ a b, ev ≠ PipelineEvent.tee_data e.tee_src_pad a b) :
    pipelineStep w ev = w := by
  unfold pipelineStep
  split
  · rfl
  · cases ev with
    | tee_data pad a b =>
      have hpad : ¬ e.tee_src_pad = pad := fun h => hev a b (by rw [h])
      simp [probesOn, hp, hpad, run_block_probes]
    | pad_event pad is_eos a b =>
      simp [probesOn, hp, run_event_probes]

theorem closing_step_data (w : World) (n : Nat) (p : Ptr) (e : ReceiverEntry) (c : Conn)
    (a b : GstStateChangeReturn)
    (hp : w.probes = [⟨n, e.tee_src_pad, ProbeKind.pad_probe_cb, some p⟩])
    (he : w.entry p = some e) (hc : e.connection = some c) (hr : e.r_table = true)
    (hf : w.fault = none) :
    (pipelineStep w (PipelineEvent.tee_data e.tee_src_pad a b)).probes = []
    ∧ (pipelineStep w (PipelineEvent.tee_data e.tee_src_pad a b)).table.lookup c = none
    ∧ detachTrace e (pipelineStep w (PipelineEvent.tee_data e.tee_src_pad a b)).log
        = detachTrace e w.log ++ [DetachStep.eos_handler_installed, DetachStep.eos_injected,
            DetachStep.unlinked, DetachStep.released, DetachStep.stopped] := by
  obtain ⟨c1, _, c3, c4⟩ := pad_probe_cb_chain w n p e c a b hp he hc hr hf
  have hstep : pipelineStep w (PipelineEvent.tee_data e.tee_src_pad a b)
      = (pad_probe_cb w e.tee_src_pad n (some p) a b).1 := by
    simp [pipelineStep, hf, probesOn, hp, run_block_probes]
  rw [hstep]
  exact ⟨c1, c3, c4⟩

theorem pipelineRun_cons (w : World) (ev : PipelineEvent) (evs : List PipelineEvent) :
    pipelineRun w (ev :: evs) = pipelineRun (pipelineStep w ev) evs := rfl

/-- The steps of a complete detach, in order. -/
theorem closing_run (p : Ptr) (e : ReceiverEntry) (c : Conn)
    (hc : e.connection = some c) (hr : e.r_table = true) (evs : List PipelineEvent) :
    ∀ (w : World) (n : Nat),
      w.probes = [⟨n, e.tee_src_pad, ProbeKind.pad_probe_cb, some p⟩] →
      w.entry p = some e → w.fault = none →
      (detachTrace e (pipelineRun w evs).log = detachTrace e w.log
          ∧ ¬ ∃ a b, PipelineEvent.tee_data e.tee_src_pad a b ∈ evs)
      ∨ (detachTrace e (pipelineRun w evs).log
            = detachTrace e w.log ++ [DetachStep.eos_handler_installed,
                DetachStep.eos_injected, DetachStep.unlinked, DetachStep.released,
                DetachStep.stopped]
          ∧ (pipelineRun w evs).table.lookup c = none
          ∧ ∃ a b, PipelineEvent.tee_data e.tee_src_pad a b ∈ evs) := by
  induction evs with
  | nil =>
    intro w n _ _ _
    exact Or.inl ⟨rfl, by simp⟩
  | cons ev evs ih =>
    intro w n hp he hf
    rw [pipelineRun_cons]
    by_cases hev : ∃ a b, ev = PipelineEvent.tee_data e.tee_src_pad a b
    · obtain ⟨a, b, rfl⟩ := hev
      obtain ⟨d1, d2, d3⟩ := closing_step_data w n p e c a b hp he hc hr hf
      right
      rw [pipelineRun_no_probes evs _ d1]
      exact ⟨d3, d2, a, b, by simp⟩
    · have hev2 : ∀ a b, ev ≠ PipelineEvent.tee_data e.tee_src_pad a b :=
        fun a b h => hev ⟨a, b, h⟩
      rw [closing_step_other w n p e hp ev hev2]
      rcases ih w n hp he hf with ⟨h1, h2⟩ | ⟨h1, h2, a, b, h3⟩
      · left
        refine ⟨h1, ?_⟩
        rintro ⟨a, b, hm⟩
        rcases List.mem_cons.mp hm with h | h
        · exact hev2 a b h.symm
        · exact h2 ⟨a, b, h⟩
      · right
        exact ⟨h1, h2, a, b, List.mem_cons_of_mem _ h3⟩

theorem detachTrace_r_table (e : ReceiverEntry) (log : List Action) :
    detachTrace { e with r_table := true } log = detachTrace e log := rfl

theorem handler_init_attached (c : Conn) (ip : String) (r1 r2 : GstStateChangeReturn)
    (p : Ptr) (e : ReceiverEntry)
    (hp : (soup_websocket_handler World.init c (some ip) r1 r2).table.lookup c = some p)
    (he : (soup_websocket_handler World.init c (some ip) r1 r2).entry p = some e) :
    (soup_websocket_handler World.init c (some ip) r1 r2).probes = []
    ∧ (soup_websocket_handler World.init c (some ip) r1 r2).fault = none
    ∧ e.connection = some c
    ∧ detachTrace e (soup_websocket_handler World.init c (some ip) r1 r2).log = [] := by
  by_cases hf : r1 = GstStateChangeReturn.FAILURE
  · simp [soup_websocket_handler, World.init, create_receiver_entry, hf, World.g_error,
      World.emit] at hp
  · by_cases hg : r2 = GstStateChangeReturn.SUCCESS ∨ r2 = GstStateChangeReturn.NO_PREROLL
    · simp [soup_websocket_handler, World.init, create_receiver_entry, hf, hg,
        World.emit, g_hash_table_replace, World.entry, List.lookup] at hp he ⊢
      subst hp
      simp [List.lookup] at he
      subst he
      simp [detachTrace, detachStepOf]
    · simp [soup_websocket_handler, World.init, create_receiver_entry, hf, hg,
        World.emit, g_hash_table_replace, World.entry, List.lookup] at hp he ⊢
      subst hp
      simp [List.lookup] at he
      subst he
      simp [detachTrace, detachStepOf]

/-- C4: a session is attached from the initial state and its connection
closes; `evs` is anything the media pipeline does afterwards. The
attach itself leaves no detach milestone in the log. After the close and
`evs`, the milestones of the branch are an initial part of: blocking
probe requested (by `soup_websocket_closed_cb`), end-of-stream handler
installed and end-of-stream injected (by `pad_probe_cb`), pad unlinked,
pad released, path stopped (by `event_probe_cb`). So the phases are an
initial part of ATTACHED, DRAIN_REQUESTED, DRAINING, DETACHED, never
ATTACHED followed by DETACHED; and once data has reached the tee pad,
all four phases have been passed and the registry has dropped the
connection. -/
theorem detach_phases_in_order (c : Conn) (ip : String) (r1 r2 : GstStateChangeReturn)
    (p : Ptr) (e : ReceiverEntry) (evs : List PipelineEvent)
    (hp : (soup_websocket_handler World.init c (some ip) r1 r2).table.lookup c = some p)
    (he : (soup_websocket_handler World.init c (some ip) r1 r2).entry p = some e) :
    detachTrace e (soup_websocket_handler World.init c (some ip) r1 r2).log = []
    ∧ detachTrace e (pipelineRun (soup_websocket_closed_cb
          (soup_websocket_handler World.init c (some ip) r1 r2) c) evs).log
        <+: [DetachStep.block_requested, DetachStep.eos_handler_installed,
          DetachStep.eos_injected, DetachStep.unlinked, DetachStep.released,
          DetachStep.stopped]
    ∧ phaseHistory e (pipelineRun (soup_websocket_closed_cb
          (soup_websocket_handler World.init c (some ip) r1 r2) c) evs).log
        <+: [BranchPhase.ATTACHED, BranchPhase.DRAIN_REQUESTED, BranchPhase.DRAINING,
          BranchPhase.DETACHED]
    ∧ ((∃ a b, PipelineEvent.tee_data e.tee_src_pad a b ∈ evs) →
        phaseHistory e (pipelineRun (soup_websocket_closed_cb
            (soup_websocket_handler World.init c (some ip) r1 r2) c) evs).log
          = [BranchPhase.ATTACHED, BranchPhase.DRAIN_REQUESTED, BranchPhase.DRAINING,
            BranchPhase.DETACHED]
        ∧ (pipelineRun (soup_websocket_closed_cb
            (soup_websocket_handler World.init c (some ip) r1 r2) c) evs).table.lookup c
          = none) := by
  obtain ⟨i1, i2, i3, i4⟩ := handler_init_attached c ip r1 r2 p e hp he
  generalize soup_websocket_handler World.init c (some ip) r1 r2 = w1 at hp he i1 i2 i4 ⊢
  have hs := closed_cb_registered w1 c p e hp he
  have s1 : (soup_websocket_closed_cb w1 c).probes
      = [⟨w1.nextId, e.tee_src_pad, ProbeKind.pad_probe_cb, some p⟩] := by
    rw [hs]; simp [gst_pad_add_probe, set_r_table, i1]
  have s2 : (soup_websocket_closed_cb w1 c).entry p = some { e with r_table := true } := by
    rw [hs]
    simpa [gst_pad_add_probe, set_r_table, World.entry] using lookup_map_r_table p e w1.heap he
  have s3 : (soup_websocket_closed_cb w1 c).fault = none := by
    rw [hs]; simpa [gst_pad_add_probe, set_r_table] using i2
  have s4 : detachTrace e (soup_websocket_closed_cb w1 c).log = [DetachStep.block_requested] := by
    rw [hs]
    simp only [gst_pad_add_probe, set_r_table, detachTrace, List.filterMap_append] at i4 ⊢
    rw [i4]
    simp [detachStepOf]
  have hrun := closing_run p { e with r_table := true } c i3 rfl evs
    (soup_websocket_closed_cb w1 c) w1.nextId s1 s2 s3
  simp only [detachTrace_r_table, s4] at hrun
  refine ⟨i4, ?_, ?_, ?_⟩
  · rcases hrun with ⟨h, _⟩ | ⟨h, _, _⟩ <;> rw [h] <;> decide
  · rcases hrun with ⟨h, _⟩ | ⟨h, _, _⟩ <;> rw [phaseHistory, h] <;> decide
  · intro hd
    rcases hrun with ⟨_, h⟩ | ⟨h, h2, _⟩
    · exact absurd hd h
    · exact ⟨by rw [phaseHistory, h]; decide, h2⟩

/-- C4, witness: the sample session; after the close an event reaches
the sink pad, then data reaches the tee pad, twice. -/
theorem detach_phases_in_order_witness :
    phaseHistory sampleEntry (pipelineRun (soup_websocket_closed_cb
        (soup_websocket_handler World.init 7 (some "203.0.113.5")
          GstStateChangeReturn.SUCCESS GstStateChangeReturn.SUCCESS) 7)
        [PipelineEvent.pad_event 5 true GstStateChangeReturn.SUCCESS GstStateChangeReturn.SUCCESS,
         PipelineEvent.tee_data 6 GstStateChangeReturn.ASYNC GstStateChangeReturn.ASYNC,
         PipelineEvent.tee_data 6 GstStateChangeReturn.ASYNC GstStateChangeReturn.ASYNC]).log
      <+: [BranchPhase.ATTACHED, BranchPhase.DRAIN_REQUESTED, BranchPhase.DRAINING,
        BranchPhase.DETACHED] :=
  (detach_phases_in_order 7 "203.0.113.5" GstStateChangeReturn.SUCCESS
    GstStateChangeReturn.SUCCESS 1 sampleEntry _ (by decide) (by decide)).2.2.1

/-! ## C11: the state query after the start of a branch -/

/-- C11, as amended: when the start of the sub-pipeline does not fail
and the state query returns neither success nor no-preroll,
`create_receiver_entry` logs a warning and still returns the new entry:
the bin stays a child of the shared pipeline, the request pad stays
allocated, and no stop and no removal is among the calls made. -/
theorem attach_state_query_only_warns (w : World) (c : Conn) (ip : String)
    (set_ret get_ret : GstStateChangeReturn)
    (hs : set_ret ≠ GstStateChangeReturn.FAILURE)
    (hg : ¬ (get_ret = GstStateChangeReturn.SUCCESS
      ∨ get_ret = GstStateChangeReturn.NO_PREROLL)) :
    (create_receiver_entry w c ip set_ret get_ret).2 = some w.nextId
    ∧ (create_receiver_entry w c ip set_ret get_ret).1.children
        = w.children ++ [w.nextId + 1]
    ∧ (create_receiver_entry w c ip set_ret get_ret).1.teePads
        = w.teePads ++ [w.nextId + 5]
    ∧ (create_receiver_entry w c ip set_ret get_ret).1.log
        = w.log ++ [Action.bin_add (w.nextId + 1), Action.request_pad (w.nextId + 5),
            Action.set_state (w.nextId + 1) GstState.PLAYING,
            Action.get_state (w.nextId + 1),
            Action.g_warning "Pipeline failed to reach PLAYING state properly"]
    ∧ (create_receiver_entry w c ip set_ret get_ret).1.fault = w.fault := by
  simp [create_receiver_entry, hs, hg, World.emit]

/-- C11, witness: the first attach of a fresh process, with an
asynchronous start and a state query that runs into the timeout. -/
theorem attach_state_query_only_warns_witness :
    (create_receiver_entry World.init 7 "203.0.113.5" GstStateChangeReturn.ASYNC
        GstStateChangeReturn.ASYNC).2 = some World.init.nextId :=
  (attach_state_query_only_warns World.init 7 "203.0.113.5" GstStateChangeReturn.ASYNC
    GstStateChangeReturn.ASYNC (by decide) (by decide)).1

/-- C11, counterexample: a viewer connects to a fresh process and the
state query of its branch runs into the timeout. The attach returns the
entry, the session is registered, the bin is still a child of the shared
pipeline and its pad is still allocated; the branch was neither stopped
nor removed. -/
theorem attach_timeout_counterexample :
    (create_receiver_entry World.init 7 "203.0.113.5" GstStateChangeReturn.ASYNC
        GstStateChangeReturn.ASYNC).2 = some 1
    ∧ (soup_websocket_handler World.init 7 (some "203.0.113.5") GstStateChangeReturn.ASYNC
        GstStateChangeReturn.ASYNC).table = [(7, 1)]
    ∧ (soup_websocket_handler World.init 7 (some "203.0.113.5") GstStateChangeReturn.ASYNC
        GstStateChangeReturn.ASYNC).children = [2]
    ∧ (soup_websocket_handler World.init 7 (some "203.0.113.5") GstStateChangeReturn.ASYNC
        GstStateChangeReturn.ASYNC).teePads = [6]
    ∧ Action.set_state 2 GstState.NULL
        ∉ (soup_websocket_handler World.init 7 (some "203.0.113.5")
            GstStateChangeReturn.ASYNC GstStateChangeReturn.ASYNC).log
    ∧ Action.bin_remove 2
        ∉ (soup_websocket_handler World.init 7 (some "203.0.113.5")
            GstStateChangeReturn.ASYNC GstStateChangeReturn.ASYNC).log := by
  decide

/-! ## C15: candidates without a `.local` host name -/

theorem scan_escape_char (c : Char) (hc : c ≠ Char.ofNat 0) (t : List Char) :
    scanString_go .plain (json_escape_char c ++ t)
      = (scanString_go .plain t).map (consChar c) := by
  by_cases h1 : c = '\\'
  · subst h1; simp [json_escape_char, scanString_go, unescape]
  by_cases h2 : c = '"'
  · subst h2; simp [json_escape_char, scanString_go, unescape]
  by_cases h3 : (0 < c.toNat ∧ c.toNat < 31) ∨ c.toNat = 127
  · have hcn : c = Char.ofNat c.toNat := (Char.ofNat_toNat c).symm
    generalize c.toNat = n at h3 hcn
    subst hcn
    rcases h3 with ⟨ha, hb⟩ | hb
    · interval_cases n <;> rfl
    · subst hb; rfl
  · have he : json_escape_char c = [c] := by simp [json_escape_char, h1, h2, h3]
    rw [he]
    simp [scanString_go, h1, h2, hc]

theorem scan_strescape (t : List Char) (r : List Char × List Char)
    (ht : scanString_go .plain t = some r) :
    ∀ d : List Char, Char.ofNat 0 ∉ d →
      scanString_go .plain (json_strescape d ++ t) = some (d ++ r.1, r.2)
  | [], _ => by simpa [json_strescape] using ht
  | c :: cs, h => by
    have hc : c ≠ Char.ofNat 0 := fun e => h (by simp [e])
    have hcs : Char.ofNat 0 ∉ cs := fun e => h (by simp [e])
    simp only [json_strescape, hc, if_false, List.append_assoc]
    rw [scan_escape_char c hc, scan_strescape t r ht cs hcs]
    rfl

theorem dump_offer (d : String) :
    dump_node (JsonNode.object [("type", JsonNode.str "offer"), ("sdp", JsonNode.str d)])
      = offerHead ++ (json_strescape d.data ++ ['"', Char.ofNat 125]) := by
  have h1 : json_strescape ['t', 'y', 'p', 'e'] = ['t', 'y', 'p', 'e'] := by decide
  have h2 : json_strescape ['o', 'f', 'f', 'e', 'r'] = ['o', 'f', 'f', 'e', 'r'] := by decide
  have h3 : json_strescape ['s', 'd', 'p'] = ['s', 'd', 'p'] := by decide
  simp only [dump_node, dump_object, offerHead, h1, h2, h3, List.cons_append,
    List.nil_append, List.append_assoc]

theorem parse_offer (n : Nat) (body x : List Char)
    (h : scanString_go .plain body = some (x, [Char.ofNat 125])) :
    parseValue (n + 4) (offerHead ++ body)
      = some (JsonNode.object [("type", JsonNode.str "offer"),
          ("sdp", JsonNode.str (String.mk x))], []) := by
  simp [offerHead, parseValue, parseMembers, skipWs, isJsonWs, scanString, scanString_go,
    consChar, h, objInsert]

theorem offer_text_parses (d : String) (hd : Char.ofNat 0 ∉ d.data) :
    json_parser_load_from_data
        (get_string_from_json_object [("type", JsonNode.str "offer"), ("sdp", JsonNode.str d)])
      = some (JsonNode.object [("type", JsonNode.str "offer"), ("sdp", JsonNode.str d)]) := by
  have hs := scan_strescape ['"', Char.ofNat 125] ([], [Char.ofNat 125])
    (by simp [scanString_go]) d.data hd
  simp only [List.append_nil] at hs
  unfold json_parser_load_from_data get_string_from_json_object json_generator_to_data
  rw [dump_offer]
  have hlen : ∃ n, (String.mk (offerHead ++ (json_strescape d.data
      ++ ['"', Char.ofNat 125]))).length + 1 = n + 4 :=
    ⟨(json_strescape d.data ++ ['"', Char.ofNat 125]).length + 20, by
      simp [String.length, offerHead]⟩
  obtain ⟨n, hn⟩ := hlen
  rw [hn, parse_offer n _ d.data hs]
  simp [skipWs]

/-- C12: for every local description text `d` (the text of a C string,
so without a NUL character) and every live session with a connection,
`on_offer_created_cb` applies the description and calls
`soup_websocket_connection_send_text` once, with the text that
`get_string_from_json_object` renders for the object with `type` =
"offer" and `sdp` = `d`; and that text parses back, with the parser the
program uses for inbound messages, to a JSON object whose `type` member
is "offer" and whose `sdp` member is exactly `d`. -/
theorem offer_round_trip (w : World) (user_data : Ptr) (e : ReceiverEntry) (c : Conn)
    (d : String) (he : w.entry user_data = some e) (hc : e.connection = some c)
    (hd : Char.ofNat 0 ∉ d.data) :
    on_offer_created_cb w (some d) user_data
      = ((w.emit (Action.emit_set_local_description e.webrtcbin (some d))).emit
          (Action.g_print "Negotiation offer created:\n%s\n")).emit
          (Action.send_text c (get_string_from_json_object
            [("type", JsonNode.str "offer"), ("sdp", JsonNode.str d)]))
    ∧ ∃ root : JsonObject,
        json_parser_load_from_data (get_string_from_json_object
            [("type", JsonNode.str "offer"), ("sdp", JsonNode.str d)])
          = some (JsonNode.object root)
        ∧ json_object_get_string_member (some root) "type" = some "offer"
        ∧ json_object_get_string_member (some root) "sdp" = some d := by
  refine ⟨?_, [("type", JsonNode.str "offer"), ("sdp", JsonNode.str d)],
    offer_text_parses d hd, ?_, ?_⟩
  · simp [on_offer_created_cb, he, hc, soup_websocket_connection_send_text, World.emit]
  · simp [json_object_get_string_member, List.lookup]
  · simp [json_object_get_string_member, List.lookup]

/-- C12, witness: a description of two lines, with a quote and a
backslash in it, sent to the sample session. -/
theorem offer_round_trip_witness :
    ∃ root : JsonObject,
      json_parser_load_from_data (get_string_from_json_object
          [("type", JsonNode.str "offer"), ("sdp", JsonNode.str "v=0\r\ns=\"a\\b\"\r\n")])
        = some (JsonNode.object root)
      ∧ json_object_get_string_member (some root) "type" = some "offer"
      ∧ json_object_get_string_member (some root) "sdp" = some "v=0\r\ns=\"a\\b\"\r\n" :=
  (offer_round_trip sampleWorld 1 sampleEntry 7 "v=0\r\ns=\"a\\b\"\r\n"
    (by decide) (by decide) (by decide)).2

/-! ## C13: a local candidate is sent as an `ice` message -/

/-- C13: for every live session with a connection, every media-line
index `i` and every candidate string `c` that the WebRTC element
reports, `on_ice_candidate_cb` makes exactly one call, the call of
`soup_websocket_connection_send_text` on the connection of the session,
with the text of the JSON object with `type` = "ice" and `candidate` =
the object with `sdpMLineIndex` = `i` and `candidate` = `c`. The text
holds the index in decimal and the string `c` itself, with the escapes
of JSON and no other change. -/
theorem local_candidate_sent (w : World) (user_data : Ptr) (e : ReceiverEntry) (c : Conn)
    (i : Nat) (candidate : String)
    (he : w.entry user_data = some e) (hc : e.connection = some c) :
    on_ice_candidate_cb w i candidate user_data
      = { w with
          log := w.log ++ [Action.send_text c (get_string_from_json_object
            [("type", JsonNode.str "ice"),
              ("candidate", JsonNode.object [("sdpMLineIndex", JsonNode.int i),
                ("candidate", JsonNode.str candidate)])])] }
    ∧ get_string_from_json_object
          [("type", JsonNode.str "ice"),
            ("candidate", JsonNode.object [("sdpMLineIndex", JsonNode.int i),
              ("candidate", JsonNode.str candidate)])]
        = String.mk ("\x7b\"type\":\"ice\",\"candidate\":\x7b\"sdpMLineIndex\":".data
            ++ (Nat.repr i).data ++ ",\"candidate\":\"".data
            ++ json_strescape candidate.data ++ "\"\x7d\x7d".data) := by
  refine ⟨?_, ?_⟩
  · simp [on_ice_candidate_cb, he, hc, soup_websocket_connection_send_text, World.emit]
  · have h1 : json_strescape ['t', 'y', 'p', 'e'] = ['t', 'y', 'p', 'e'] := by decide
    have h2 : json_strescape ['i', 'c', 'e'] = ['i', 'c', 'e'] := by decide
    have h3 : json_strescape ['c', 'a', 'n', 'd', 'i', 'd', 'a', 't', 'e']
        = ['c', 'a', 'n', 'd', 'i', 'd', 'a', 't', 'e'] := by decide
    have h4 : json_strescape ['s', 'd', 'p', 'M', 'L', 'i', 'n', 'e', 'I', 'n', 'd', 'e', 'x']
        = ['s', 'd', 'p', 'M', 'L', 'i', 'n', 'e', 'I', 'n', 'd', 'e', 'x'] := by decide
    have h5 : int_text (i : Int) = (Nat.repr i).data := by
      simp [int_text]
    simp only [get_string_from_json_object, json_generator_to_data, dump_node, dump_object,
      h1, h2, h3, h4, h5, List.cons_append, List.nil_append, List.append_assoc]

/-- C13, witness: a host candidate with index 0 on the sample session. -/
theorem local_candidate_sent_witness :
    on_ice_candidate_cb sampleWorld 0 "candidate:1 1 UDP 2122260223 192.0.2.1 54321 typ host" 1
      = { sampleWorld with
          log := sampleWorld.log ++ [Action.send_text 7 (get_string_from_json_object
            [("type", JsonNode.str "ice"),
              ("candidate", JsonNode.object [("sdpMLineIndex", JsonNode.int (0 : Nat)),
                ("candidate",
                  JsonNode.str "candidate:1 1 UDP 2122260223 192.0.2.1 54321 typ host")])])] } :=
  (local_candidate_sent sampleWorld 1 sampleEntry 7 0
    "candidate:1 1 UDP 2122260223 192.0.2.1 54321 typ host" (by decide) (by decide)).1

/-! ## C14: callbacks that arrive after the close -/

theorem closed_cb_entry (w : World) (c : Conn) (p : Ptr) (e : ReceiverEntry)
    (hl : w.table.lookup c = some p) (he : w.entry p = some e) :
    (soup_websocket_closed_cb w c).entry p = some { e with r_table := true } := by
  rw [closed_cb_registered w c p e hl he]
  simpa [gst_pad_add_probe, set_r_table, World.entry] using lookup_map_r_table p e w.heap he

/-- C14, as amended: the close does not cancel the callbacks. For every
registered session with a connection, once `soup_websocket_closed_cb`
has run and while the entry is live, each callback makes the calls it
makes for an open session: negotiation-needed calls `create-offer`,
offer-created calls `set-local-description` and
`soup_websocket_connection_send_text` with the offer, ice-candidate
calls `soup_websocket_connection_send_text` with the `ice` message, and
an inbound answer calls `set-remote-description`. -/
theorem callbacks_after_close_still_act (sdp_ok : String → Bool) (stack : Nat) (w : World)
    (c : Conn) (p : Ptr) (e : ReceiverEntry)
    (hl : w.table.lookup c = some p) (he : w.entry p = some e)
    (hc : e.connection = some c) :
    on_negotiation_needed_cb (soup_websocket_closed_cb w c) e.webrtcbin (some p)
        = ((soup_websocket_closed_cb w c).emit
            (Action.g_print "Creating negotiation offer\n")).emit
            (Action.emit_create_offer e.webrtcbin p)
    ∧ (∀ d : String, on_offer_created_cb (soup_websocket_closed_cb w c) (some d) p
        = (((soup_websocket_closed_cb w c).emit
            (Action.emit_set_local_description e.webrtcbin (some d))).emit
            (Action.g_print "Negotiation offer created:\n%s\n")).emit
            (Action.send_text c (get_string_from_json_object
              [("type", JsonNode.str "offer"), ("sdp", JsonNode.str d)])))
    ∧ (∀ (i : Nat) (candidate : String),
        on_ice_candidate_cb (soup_websocket_closed_cb w c) i candidate p
          = (soup_websocket_closed_cb w c).emit
              (Action.send_text c (get_string_from_json_object
                [("type", JsonNode.str "ice"),
                  ("candidate", JsonNode.object [("sdpMLineIndex", JsonNode.int i),
                    ("candidate", JsonNode.str candidate)])])))
    ∧ (∀ (data sdp : String), sdp_ok sdp = true →
        soup_websocket_message_cb sdp_ok stack (soup_websocket_closed_cb w c) .TEXT
            ⟨data, some (.object [("type", .str "answer"), ("sdp", .str sdp)])⟩ p
          = ((soup_websocket_closed_cb w c).emit
              (Action.g_print "Received SDP answer:\n%s\n")).emit
              (Action.emit_set_remote_description e.webrtcbin sdp)) := by
  have hen := closed_cb_entry w c p e hl he
  generalize soup_websocket_closed_cb w c = wc at hen ⊢
  refine ⟨rfl, fun d => ?_, fun i candidate => ?_, fun data sdp hok => ?_⟩
  · simp [on_offer_created_cb, hen, hc, soup_websocket_connection_send_text, World.emit]
  · simp [on_ice_candidate_cb, hen, hc, soup_websocket_connection_send_text, World.emit]
  · have hen2 : (wc.emit (Action.g_print "Received SDP answer:\n%s\n")).entry p
        = some { e with r_table := true } := by
      simpa [World.emit, World.entry] using hen
    simp [soup_websocket_message_cb, json_node_get_object, json_object_has_member,
      json_object_get_string_member, List.lookup, handle_answer, hok, hen2]

/-- C14, witness: the sample session after its close. -/
theorem callbacks_after_close_still_act_witness :
    on_negotiation_needed_cb (soup_websocket_closed_cb sampleWorld 7) sampleEntry.webrtcbin
        (some 1)
      = ((soup_websocket_closed_cb sampleWorld 7).emit
          (Action.g_print "Creating negotiation offer\n")).emit
          (Action.emit_create_offer sampleEntry.webrtcbin 1) :=
  (callbacks_after_close_still_act (fun _ => true) sampleStack sampleWorld 7 1 sampleEntry
    (by decide) (by decide) (by decide)).1

/-- C14, counterexample: on the sample session, after the close, the
negotiation-needed callback calls `create-offer` on the WebRTC element,
the offer-created callback calls `set-local-description`, and the
ice-candidate callback calls `soup_websocket_connection_send_text`; none
of these calls was in the log before. -/
theorem callbacks_after_close_counterexample :
    (Action.emit_create_offer 4 1
        ∈ (on_negotiation_needed_cb (soup_websocket_closed_cb sampleWorld 7) 4 (some 1)).log
      ∧ Action.emit_create_offer 4 1 ∉ (soup_websocket_closed_cb sampleWorld 7).log)
    ∧ (Action.emit_set_local_description 4 (some "v=0\r\n")
        ∈ (on_offer_created_cb (soup_websocket_closed_cb sampleWorld 7) (some "v=0\r\n") 1).log
      ∧ Action.emit_set_local_description 4 (some "v=0\r\n")
        ∉ (soup_websocket_closed_cb sampleWorld 7).log)
    ∧ (on_ice_candidate_cb (soup_websocket_closed_cb sampleWorld 7) 0 "candidate:1" 1).log
        = (soup_websocket_closed_cb sampleWorld 7).log
          ++ [Action.send_text 7
            "\x7b\"type\":\"ice\",\"candidate\":\x7b\"sdpMLineIndex\":0,\"candidate\":\"candidate:1\"\x7d\x7d"] := by
  decide

end VaddImprove
